import Mathlib

/-!
Verification of the `RefreshRateCalculator` class (RefreshRateCalculator.js).

The estimator is embedded shallowly: JavaScript numbers are modelled as exact
rationals (`ℚ`), the mutable instance fields become a `State` structure, and
each method becomes a pure function on `State`.  JavaScript-specific numeric
operations are modelled explicitly: `Math.round` rounds half toward positive
infinity, `%` is the remainder that takes the sign of the dividend, and the
`&&` guards of `__add` short-circuit (the second pre-decrement happens only
when the first test passed).  The diagnostic string held in `_m_vi` is only
ever consulted for truthiness (empty vs non-empty), so it is modelled as a
`Bool`.  Division by zero is total in `ℚ` (yielding 0), which is flagged
explicitly where it matters.  The tunable constants set in the constructor
are gathered in a `Config` record, with `defaultConfig` holding the source
values; `_nJavaScriptSkip` additionally lives in `State` because `__reset`
does not touch it.  The method `__calc` is called `calcHz` because `calc` is
reserved in Lean; `__add`'s store block is `storeSample`.
-/

namespace RRC

/-- JavaScript Math.round: rounds half toward positive infinity. -/
def jsRound (q : ℚ) : ℤ := ⌊q + 1/2⌋

/-- Truncation toward zero, as used by the JavaScript % operator. -/
def jsTrunc (q : ℚ) : ℤ := if 0 ≤ q then ⌊q⌋ else ⌈q⌉

/-- JavaScript remainder a % b: takes the sign of the dividend.  Total on ℚ
(b = 0 gives back a, since a / 0 = 0 in ℚ). -/
def jsRem (a b : ℚ) : ℚ := a - b * (jsTrunc (a / b) : ℚ)

/-- The tunable constants set in the constructor of RefreshRateCalculator. -/
structure Config where
  VALIDATEMS : ℚ
  TIGHTGROUPMS : ℚ
  MSCHANGE : ℚ
  MAXSTORE : ℕ
  LOWESTVALIDHZ : ℚ
  nJavaScriptSkip : ℤ
deriving DecidableEq

/-- The constants of the shipped source: 100.0, 1.0, 1.0, 5000000, 35, 60. -/
def defaultConfig : Config := ⟨100, 1, 1, 5000000, 35, 60⟩

/-- The mutable instance fields of RefreshRateCalculator. -/
structure State where
  cycleCount : ℕ
  nSkipBase : ℤ
  nSkip : ℤ
  nJavaScriptSkip : ℤ
  tUpdate : ℚ
  L0 : ℚ
  L1 : ℚ
  L2 : ℚ
  L3 : ℚ
  L4 : ℚ
  m_D : List ℚ
  m_S : List ℚ
  m_ms : ℚ
  m_vi : Bool
  m_tvsync : ℚ
  m_summs : ℚ
  m_nms : ℕ
  m_nChange : ℕ
deriving DecidableEq

/-- The state produced by `__reset`: everything zeroed except
`_nJavaScriptSkip`, which `__reset` does not assign. -/
def State.cleared (njs : ℤ) : State :=
  ⟨0, 0, 0, njs, 0, 0, 0, 0, 0, 0, [], [], 0, false, 0, 0, 0, 0⟩

/-- `__reset`: clears all statistics, keeping `_nJavaScriptSkip`. -/
def resetOf (s : State) : State := State.cleared s.nJavaScriptSkip

/-- The constructor: sets `_nJavaScriptSkip` from the tunables and resets. -/
def init (cfg : Config) : State := State.cleared cfg.nJavaScriptSkip

/-- `__cut`: keep the even half of an array (indices 0, 2, 4, ...). -/
def cut : List ℚ → List ℚ
  | [] => []
  | [a] => [a]
  | a :: _ :: rest => a :: cut rest

/-- The top of `__add`: count the cycle and shift the 5-slot window. -/
def shiftWindow (s : State) (tFrame : ℚ) : State :=
  { s with cycleCount := s.cycleCount + 1,
           L0 := s.L1, L1 := s.L2, L2 := s.L3, L3 := s.L4, L4 := tFrame }

/-- The grouping metric of `__add`: max of the four consecutive window
deltas minus their min. -/
def windowGrouping (s : State) : ℚ :=
  max (max (max (s.L4 - s.L3) (s.L3 - s.L2)) (s.L2 - s.L1)) (s.L1 - s.L0) -
  min (min (min (s.L4 - s.L3) (s.L3 - s.L2)) (s.L2 - s.L1)) (s.L1 - s.L0)

/-- The Hz-change tracking block of `__add`: either bump the consecutive
change counter, or fold `avems` into the running mean and possibly seed
`_m_ms` from it. -/
def changeTrack (cfg : Config) (s : State) (avems grouping : ℚ) : State :=
  if 10 < s.m_nms ∧ cfg.MSCHANGE < |avems - s.m_summs / (s.m_nms : ℚ)| then
    { s with m_nChange := s.m_nChange + 1 }
  else
    let s2 := { s with m_nChange := 0, m_summs := s.m_summs + avems,
                       m_nms := s.m_nms + 1 }
    if s2.m_ms = 0 ∧ max 30 (grouping * 60) < (s2.m_nms : ℚ) then
      { s2 with m_ms := s2.m_summs / (s2.m_nms : ℚ) }
    else s2

/-- The store block of `__add`: downsample both sequences when at capacity
(bumping the skip stride), then append the raw middle time and the smoothed
time and reload the skip counter from the stride. -/
def storeSample (cfg : Config) (s : State) : State :=
  let s2 := if cfg.MAXSTORE ≤ s.m_D.length then
      { s with m_D := cut s.m_D, m_S := cut s.m_S,
               nSkipBase := s.nSkipBase * 2 + 1 }
    else s
  { s2 with m_D := s2.m_D ++ [s2.L2],
            m_S := s2.m_S ++ [(s2.L0 + s2.L1 + s2.L2 + s2.L3 + s2.L4) / 5],
            nSkip := s2.nSkipBase }

/-- Accumulator of the least-squares loop in `__validate`. -/
structure OLSAcc where
  X : ℤ
  sx : ℚ
  sy : ℚ
  sxx : ℚ
  sxy : ℚ
deriving DecidableEq

/-- The per-iteration advance of the cycle index `X` in `__validate`: 0 at
the first sample (`loop > 0` is false), else round((S[i] - S[i-1]) / ms). -/
def xStep (ms sm : ℚ) : Option ℚ → ℤ
  | none => 0
  | some p => jsRound ((sm - p) / ms)

/-- The least-squares loop of `__validate`: walks the paired raw/smoothed
samples, advancing the integer cycle index `X` by
round((S[i] - S[i-1]) / ms) and accumulating the four OLS sums. -/
def olsLoop (ms d0 : ℚ) : List (ℚ × ℚ) → Option ℚ → OLSAcc → OLSAcc
  | [], _, acc => acc
  | (d, sm) :: rest, prev, acc =>
    let X : ℤ := acc.X + xStep ms sm prev
    let Y : ℚ := d - d0
    olsLoop ms d0 rest (some sm)
      ⟨X, acc.sx + (X : ℚ), acc.sy + Y,
        acc.sxx + (X : ℚ) * (X : ℚ), acc.sxy + (X : ℚ) * Y⟩

/-- The OLS sums of `__validate` over the whole store. -/
def olsAcc (ms : ℚ) (D S : List ℚ) : OLSAcc :=
  olsLoop ms (D.headD 0) (D.zip S) none ⟨0, 0, 0, 0, 0⟩

/-- The shared denominator N*sxx - sx*sx of the slope and intercept. -/
def olsDenom (ms : ℚ) (D S : List ℚ) : ℚ :=
  (D.length : ℚ) * (olsAcc ms D S).sxx - (olsAcc ms D S).sx * (olsAcc ms D S).sx

/-- The fitted slope m = (N*sxy - sx*sy) / (N*sxx - sx*sx). -/
def olsSlope (ms : ℚ) (D S : List ℚ) : ℚ :=
  ((D.length : ℚ) * (olsAcc ms D S).sxy - (olsAcc ms D S).sx * (olsAcc ms D S).sy)
    / olsDenom ms D S

/-- The fitted intercept b = (sxx*sy - sx*sxy) / (N*sxx - sx*sx). -/
def olsIntercept (ms : ℚ) (D S : List ℚ) : ℚ :=
  ((olsAcc ms D S).sxx * (olsAcc ms D S).sy - (olsAcc ms D S).sx * (olsAcc ms D S).sxy)
    / olsDenom ms D S

/-- The residual offsets of `__validate`'s drift loop, which starts at
index 1: ((D[i] - tb + halfms) % ms) - halfms. -/
def driftOffsets (D : List ℚ) (tb halfms ms : ℚ) : List ℚ :=
  (D.drop 1).map fun d => jsRem (d - tb + halfms) ms - halfms

/-- The local `m` of `__validate`: the refit interval (slope). -/
def fitM (s : State) : ℚ := olsSlope s.m_ms s.m_D s.m_S

/-- The local `b` of `__validate`: the refit intercept. -/
def fitB (s : State) : ℚ := olsIntercept s.m_ms s.m_D s.m_S

/-- The local `tb` of `__validate`: the candidate timebase m_D[0] + b. -/
def fitTb (s : State) : ℚ := s.m_D.headD 0 + fitB s

/-- The residual offsets `off` computed by `__validate`'s drift loop
(`halfms` is the freshly assigned `_m_ms / 2`, that is, `m / 2`). -/
def fitOffs (s : State) : List ℚ :=
  driftOffsets s.m_D (fitTb s) (fitM s / 2) (fitM s)

/-- The `min` accumulated by `__validate`'s drift loop, starting at 0. -/
def fitMin (s : State) : ℚ := (fitOffs s).foldl min 0

/-- The `max` accumulated by `__validate`'s drift loop, starting at 0. -/
def fitMax (s : State) : ℚ := (fitOffs s).foldl max 0

/-- `__validate`: refit interval and timebase by least squares (the slope
is written to `_m_ms` before the drift loop runs, so `halfms = m / 2`),
then check the residual drift of the stored raw samples after the first;
accept (setting `_m_tvsync` and the validated flag) or fully reset. -/
def validate (s : State) : State :=
  if fitMax s - fitMin s < fitM s / 2 then
    { s with m_ms := fitM s, m_tvsync := fitTb s + fitMin s, m_vi := true }
  else resetOf s

/-- The `avems` of `__add`: the mean of the four deltas of the (already
shifted) window, (L4 - L0) / 4. -/
def avemsVal (s : State) : ℚ := (s.L4 - s.L0) / 4

/-- The body of `__add` once the grouping filter and both skip gates have
passed: low-rate floor, change tracking, possible full reset, store, and
the periodic validation. -/
def addGated (cfg : Config) (s : State) (tFrame : ℚ) : State :=
  let avems := avemsVal s
  if avems < 1000 / cfg.LOWESTVALIDHZ then
    let s2 := changeTrack cfg s avems (windowGrouping s)
    if 20 < s2.m_nChange then resetOf s2
    else
      let s3 := storeSample cfg s2
      if s3.m_ms ≠ 0 ∧ cfg.VALIDATEMS < tFrame - s3.tUpdate then
        validate { s3 with tUpdate := tFrame }
      else s3
  else s

/-- The tight-group branch of `__add`: the two pre-decrementing skip gates
(the caller-skip gate is evaluated only when the startup gate passed). -/
def addTight (cfg : Config) (s : State) (tFrame : ℚ) : State :=
  let s1 := { s with nJavaScriptSkip := s.nJavaScriptSkip - 1 }
  if s1.nJavaScriptSkip < 0 then
    let s2 := { s1 with nSkip := s1.nSkip - 1 }
    if s2.nSkip < 0 then addGated cfg s2 tFrame else s2
  else s1

/-- `__add`: shift the window, then run the filtering algorithm when the
four recent deltas form a tight group. -/
def add (cfg : Config) (s : State) (tFrame : ℚ) : State :=
  let s1 := shiftWindow s tFrame
  if windowGrouping s1 < cfg.TIGHTGROUPMS then addTight cfg s1 tFrame else s1

/-- `__calc` (named calcHz; `calc` is reserved in Lean): the current Hz
estimate, 0 when `_m_ms` is not primed. -/
def calcHz (s : State) : ℚ := if s.m_ms ≠ 0 then 1000 / s.m_ms else 0

/-- `getCurrentFrequency`. -/
def getCurrentFrequency (s : State) : ℚ := calcHz s

/-- `__snap`: the de-jittered vsync timestamp and interval, `none` until the
validated flag is set. -/
def snap (s : State) : Option (ℚ × ℚ) :=
  if s.m_vi then some (s.m_tvsync, s.m_ms) else none

/-- `getFilteredCycleTimestamp`. -/
def getFilteredCycleTimestamp (s : State) : Option (ℚ × ℚ) := snap s

/-- `getCount`. -/
def getCount (s : State) : ℕ := s.cycleCount

/-- `countCycle`. -/
def countCycle (cfg : Config) (s : State) (t : ℚ) : State := add cfg s t

/-- `ignoreNextCycle`. -/
def ignoreNextCycle (s : State) (cycles : ℤ) : State := { s with nSkip := cycles }

/-- `restartMeasuring`. -/
def restartMeasuring (s : State) : State := resetOf s

/-- One public call on the estimator. -/
inductive Event where
  | cycle (t : ℚ)
  | ignore (n : ℤ)
  | restart
deriving DecidableEq

/-- Interpretation of one public call. -/
def stepEv (cfg : Config) (s : State) (e : Event) : State :=
  match e with
  | .cycle t => countCycle cfg s t
  | .ignore n => ignoreNextCycle s n
  | .restart => restartMeasuring s

/-- Run a list of public calls from a fresh estimator. -/
def run (cfg : Config) (evs : List Event) : State :=
  evs.foldl (stepEv cfg) (init cfg)

/-- Feed a list of timestamps to `countCycle` from a given state. -/
def runCycles (cfg : Config) (s : State) (ts : List ℚ) : State :=
  ts.foldl (add cfg) s

/-- The sample-store invariant: the two parallel sequences have equal
length, bounded by the capacity. -/
def StoreInv (cfg : Config) (s : State) : Prop :=
  s.m_D.length = s.m_S.length ∧ s.m_D.length ≤ cfg.MAXSTORE

/-- Sawtooth input used against C10: 91 five-tick blocks whose in-block
deltas are exactly 10 ms and whose bases alternate between 1000 and 1002
(so consecutive admitted windows have smoothed times only 2 ms apart),
with the last, validation-triggering tick removed. -/
def c10Ticks : List ℚ :=
  (((List.range 91).flatMap fun j =>
    let b : ℚ := if j % 2 = 0 then 1000 else 1002
    [b, b + 10, b + 20, b + 30, b + 40])).dropLast

/-- Decreasing-lattice input used against C1: 94 timestamps descending from
1990 in steps of 10 ms (the validation-triggering 95th tick is 1050). -/
def c1Ticks : List ℚ := (List.range 94).map fun i => 1990 - 10 * (i : ℚ)

/-- Increasing-lattice input used against C6: 94 timestamps ascending from
10 in steps of 10 ms; the 94th call runs a successful validation. -/
def c6Ticks : List ℚ := (List.range 94).map fun i => 10 * ((i : ℚ) + 1)

/-- Input used against C7: 64 timestamps ascending from 10 in steps of
10 ms (entering one sample into the store). -/
def c7aTicks : List ℚ := (List.range 64).map fun i => 10 * ((i : ℚ) + 1)

/-- Input used against C8: 74 timestamps at a 10 ms period followed by 23
at a 25 ms period; the 98th tick, 1340, is the 21st consecutive deviating
admission and triggers the internal Hz-change reset. -/
def c8Ticks : List ℚ :=
  ((List.range 74).map fun i => 10 * ((i : ℚ) + 1)) ++
  ((List.range 23).map fun k => 740 + 25 * ((k : ℚ) + 1))

/-- The full C8 input including the reset-triggering 98th tick. -/
def c8FullTicks : List ℚ := c8Ticks ++ [1340]

/-- C6 event trace: the successful lattice followed by restartMeasuring. -/
def c6Events : List Event := c6Ticks.map Event.cycle ++ [Event.restart]

/-- C7 event trace: 64 lattice ticks, restartMeasuring, then five more
lattice ticks continuing the same 10 ms cadence. -/
def c7Events : List Event :=
  c7aTicks.map Event.cycle ++ [Event.restart] ++
  ((List.range 5).map fun i => Event.cycle (650 + 10 * (i : ℚ)))


def c10tk0 : List ℚ := [1000, 1010, 1020, 1030, 1040, 1002, 1012, 1022, 1032, 1042, 1000, 1010]
def c10tk1 : List ℚ := [1020, 1030, 1040, 1002, 1012, 1022, 1032, 1042, 1000, 1010, 1020, 1030]
def c10tk2 : List ℚ := [1040, 1002, 1012, 1022, 1032, 1042, 1000, 1010, 1020, 1030, 1040, 1002]
def c10tk3 : List ℚ := [1012, 1022, 1032, 1042, 1000, 1010, 1020, 1030, 1040, 1002, 1012, 1022]
def c10tk4 : List ℚ := [1032, 1042, 1000, 1010, 1020, 1030, 1040, 1002, 1012, 1022, 1032, 1042]
def c10tk5 : List ℚ := [1000, 1010, 1020, 1030, 1040, 1002, 1012, 1022, 1032, 1042, 1000, 1010]
def c10tk6 : List ℚ := [1020, 1030, 1040, 1002, 1012, 1022, 1032, 1042, 1000, 1010, 1020, 1030]
def c10tk7 : List ℚ := [1040, 1002, 1012, 1022, 1032, 1042, 1000, 1010, 1020, 1030, 1040, 1002]
def c10tk8 : List ℚ := [1012, 1022, 1032, 1042, 1000, 1010, 1020, 1030, 1040, 1002, 1012, 1022]
def c10tk9 : List ℚ := [1032, 1042, 1000, 1010, 1020, 1030, 1040, 1002, 1012, 1022, 1032, 1042]
def c10tk10 : List ℚ := [1000, 1010, 1020, 1030, 1040, 1002, 1012, 1022, 1032, 1042, 1000, 1010]
def c10tk11 : List ℚ := [1020, 1030, 1040, 1002, 1012, 1022, 1032, 1042, 1000, 1010, 1020, 1030]
def c10tk12 : List ℚ := [1040, 1002, 1012, 1022, 1032, 1042, 1000, 1010, 1020, 1030, 1040, 1002]
def c10tk13 : List ℚ := [1012, 1022, 1032, 1042, 1000, 1010, 1020, 1030, 1040, 1002, 1012, 1022]
def c10tk14 : List ℚ := [1032, 1042, 1000, 1010, 1020, 1030, 1040, 1002, 1012, 1022, 1032, 1042]
def c10tk15 : List ℚ := [1000, 1010, 1020, 1030, 1040, 1002, 1012, 1022, 1032, 1042, 1000, 1010]
def c10tk16 : List ℚ := [1020, 1030, 1040, 1002, 1012, 1022, 1032, 1042, 1000, 1010, 1020, 1030]
def c10tk17 : List ℚ := [1040, 1002, 1012, 1022, 1032, 1042, 1000, 1010, 1020, 1030, 1040, 1002]
def c10tk18 : List ℚ := [1012, 1022, 1032, 1042, 1000, 1010, 1020, 1030, 1040, 1002, 1012, 1022]
def c10tk19 : List ℚ := [1032, 1042, 1000, 1010, 1020, 1030, 1040, 1002, 1012, 1022, 1032, 1042]
def c10tk20 : List ℚ := [1000, 1010, 1020, 1030, 1040, 1002, 1012, 1022, 1032, 1042, 1000, 1010]
def c10tk21 : List ℚ := [1020, 1030, 1040, 1002, 1012, 1022, 1032, 1042, 1000, 1010, 1020, 1030]
def c10tk22 : List ℚ := [1040, 1002, 1012, 1022, 1032, 1042, 1000, 1010, 1020, 1030, 1040, 1002]
def c10tk23 : List ℚ := [1012, 1022, 1032, 1042, 1000, 1010, 1020, 1030, 1040, 1002, 1012, 1022]
def c10tk24 : List ℚ := [1032, 1042, 1000, 1010, 1020, 1030, 1040, 1002, 1012, 1022, 1032, 1042]
def c10tk25 : List ℚ := [1000, 1010, 1020, 1030, 1040, 1002, 1012, 1022, 1032, 1042, 1000, 1010]
def c10tk26 : List ℚ := [1020, 1030, 1040, 1002, 1012, 1022, 1032, 1042, 1000, 1010, 1020, 1030]
def c10tk27 : List ℚ := [1040, 1002, 1012, 1022, 1032, 1042, 1000, 1010, 1020, 1030, 1040, 1002]
def c10tk28 : List ℚ := [1012, 1022, 1032, 1042, 1000, 1010, 1020, 1030, 1040, 1002, 1012, 1022]
def c10tk29 : List ℚ := [1032, 1042, 1000, 1010, 1020, 1030, 1040, 1002, 1012, 1022, 1032, 1042]
def c10tk30 : List ℚ := [1000, 1010, 1020, 1030, 1040, 1002, 1012, 1022, 1032, 1042, 1000, 1010]
def c10tk31 : List ℚ := [1020, 1030, 1040, 1002, 1012, 1022, 1032, 1042, 1000, 1010, 1020, 1030]
def c10tk32 : List ℚ := [1040, 1002, 1012, 1022, 1032, 1042, 1000, 1010, 1020, 1030, 1040, 1002]
def c10tk33 : List ℚ := [1012, 1022, 1032, 1042, 1000, 1010, 1020, 1030, 1040, 1002, 1012, 1022]
def c10tk34 : List ℚ := [1032, 1042, 1000, 1010, 1020, 1030, 1040, 1002, 1012, 1022, 1032, 1042]
def c10tk35 : List ℚ := [1000, 1010, 1020, 1030, 1040, 1002, 1012, 1022, 1032, 1042, 1000, 1010]
def c10tk36 : List ℚ := [1020, 1030, 1040, 1002, 1012, 1022, 1032, 1042, 1000, 1010, 1020, 1030]
def c10tk37 : List ℚ := [1040, 1002, 1012, 1022, 1032, 1042, 1000, 1010, 1020, 1030]

def c10st0 : State := ⟨12, 0, 0, 58, 0, 1022, 1032, 1042, 1000, 1010, [], [], 0, false, 0, 0, 0, 0⟩
def c10st1 : State := ⟨24, 0, 0, 56, 0, 1042, 1000, 1010, 1020, 1030, [], [], 0, false, 0, 0, 0, 0⟩
def c10st2 : State := ⟨36, 0, 0, 53, 0, 1010, 1020, 1030, 1040, 1002, [], [], 0, false, 0, 0, 0, 0⟩
def c10st3 : State := ⟨48, 0, 0, 51, 0, 1030, 1040, 1002, 1012, 1022, [], [], 0, false, 0, 0, 0, 0⟩
def c10st4 : State := ⟨60, 0, 0, 48, 0, 1002, 1012, 1022, 1032, 1042, [], [], 0, false, 0, 0, 0, 0⟩
def c10st5 : State := ⟨72, 0, 0, 46, 0, 1022, 1032, 1042, 1000, 1010, [], [], 0, false, 0, 0, 0, 0⟩
def c10st6 : State := ⟨84, 0, 0, 44, 0, 1042, 1000, 1010, 1020, 1030, [], [], 0, false, 0, 0, 0, 0⟩
def c10st7 : State := ⟨96, 0, 0, 41, 0, 1010, 1020, 1030, 1040, 1002, [], [], 0, false, 0, 0, 0, 0⟩
def c10st8 : State := ⟨108, 0, 0, 39, 0, 1030, 1040, 1002, 1012, 1022, [], [], 0, false, 0, 0, 0, 0⟩
def c10st9 : State := ⟨120, 0, 0, 36, 0, 1002, 1012, 1022, 1032, 1042, [], [], 0, false, 0, 0, 0, 0⟩
def c10st10 : State := ⟨132, 0, 0, 34, 0, 1022, 1032, 1042, 1000, 1010, [], [], 0, false, 0, 0, 0, 0⟩
def c10st11 : State := ⟨144, 0, 0, 32, 0, 1042, 1000, 1010, 1020, 1030, [], [], 0, false, 0, 0, 0, 0⟩
def c10st12 : State := ⟨156, 0, 0, 29, 0, 1010, 1020, 1030, 1040, 1002, [], [], 0, false, 0, 0, 0, 0⟩
def c10st13 : State := ⟨168, 0, 0, 27, 0, 1030, 1040, 1002, 1012, 1022, [], [], 0, false, 0, 0, 0, 0⟩
def c10st14 : State := ⟨180, 0, 0, 24, 0, 1002, 1012, 1022, 1032, 1042, [], [], 0, false, 0, 0, 0, 0⟩
def c10st15 : State := ⟨192, 0, 0, 22, 0, 1022, 1032, 1042, 1000, 1010, [], [], 0, false, 0, 0, 0, 0⟩
def c10st16 : State := ⟨204, 0, 0, 20, 0, 1042, 1000, 1010, 1020, 1030, [], [], 0, false, 0, 0, 0, 0⟩
def c10st17 : State := ⟨216, 0, 0, 17, 0, 1010, 1020, 1030, 1040, 1002, [], [], 0, false, 0, 0, 0, 0⟩
def c10st18 : State := ⟨228, 0, 0, 15, 0, 1030, 1040, 1002, 1012, 1022, [], [], 0, false, 0, 0, 0, 0⟩
def c10st19 : State := ⟨240, 0, 0, 12, 0, 1002, 1012, 1022, 1032, 1042, [], [], 0, false, 0, 0, 0, 0⟩
def c10st20 : State := ⟨252, 0, 0, 10, 0, 1022, 1032, 1042, 1000, 1010, [], [], 0, false, 0, 0, 0, 0⟩
def c10st21 : State := ⟨264, 0, 0, 8, 0, 1042, 1000, 1010, 1020, 1030, [], [], 0, false, 0, 0, 0, 0⟩
def c10st22 : State := ⟨276, 0, 0, 5, 0, 1010, 1020, 1030, 1040, 1002, [], [], 0, false, 0, 0, 0, 0⟩
def c10st23 : State := ⟨288, 0, 0, 3, 0, 1030, 1040, 1002, 1012, 1022, [], [], 0, false, 0, 0, 0, 0⟩
def c10st24 : State := ⟨300, 0, 0, 0, 0, 1002, 1012, 1022, 1032, 1042, [], [], 0, false, 0, 0, 0, 0⟩
def c10st25 : State := ⟨312, 0, 0, -2, 0, 1022, 1032, 1042, 1000, 1010, [1020, 1022], [1020, 1022], 0, false, 0, 20, 2, 0⟩
def c10st26 : State := ⟨324, 0, 0, -4, 0, 1042, 1000, 1010, 1020, 1030, [1020, 1022, 1020, 1022], [1020, 1022, 1020, 1022], 0, false, 0, 40, 4, 0⟩
def c10st27 : State := ⟨336, 0, 0, -7, 0, 1010, 1020, 1030, 1040, 1002, [1020, 1022, 1020, 1022, 1020, 1022, 1020], [1020, 1022, 1020, 1022, 1020, 1022, 1020], 0, false, 0, 70, 7, 0⟩
def c10st28 : State := ⟨348, 0, 0, -9, 0, 1030, 1040, 1002, 1012, 1022, [1020, 1022, 1020, 1022, 1020, 1022, 1020, 1022, 1020], [1020, 1022, 1020, 1022, 1020, 1022, 1020, 1022, 1020], 0, false, 0, 90, 9, 0⟩
def c10st29 : State := ⟨360, 0, 0, -12, 0, 1002, 1012, 1022, 1032, 1042, [1020, 1022, 1020, 1022, 1020, 1022, 1020, 1022, 1020, 1022, 1020, 1022], [1020, 1022, 1020, 1022, 1020, 1022, 1020, 1022, 1020, 1022, 1020, 1022], 0, false, 0, 120, 12, 0⟩
def c10st30 : State := ⟨372, 0, 0, -14, 0, 1022, 1032, 1042, 1000, 1010, [1020, 1022, 1020, 1022, 1020, 1022, 1020, 1022, 1020, 1022, 1020, 1022, 1020, 1022], [1020, 1022, 1020, 1022, 1020, 1022, 1020, 1022, 1020, 1022, 1020, 1022, 1020, 1022], 0, false, 0, 140, 14, 0⟩
def c10st31 : State := ⟨384, 0, 0, -16, 0, 1042, 1000, 1010, 1020, 1030, [1020, 1022, 1020, 1022, 1020, 1022, 1020, 1022, 1020, 1022, 1020, 1022, 1020, 1022, 1020, 1022], [1020, 1022, 1020, 1022, 1020, 1022, 1020, 1022, 1020, 1022, 1020, 1022, 1020, 1022, 1020, 1022], 0, false, 0, 160, 16, 0⟩
def c10st32 : State := ⟨396, 0, 0, -19, 0, 1010, 1020, 1030, 1040, 1002, [1020, 1022, 1020, 1022, 1020, 1022, 1020, 1022, 1020, 1022, 1020, 1022, 1020, 1022, 1020, 1022, 1020, 1022, 1020], [1020, 1022, 1020, 1022, 1020, 1022, 1020, 1022, 1020, 1022, 1020, 1022, 1020, 1022, 1020, 1022, 1020, 1022, 1020], 0, false, 0, 190, 19, 0⟩
def c10st33 : State := ⟨408, 0, 0, -21, 0, 1030, 1040, 1002, 1012, 1022, [1020, 1022, 1020, 1022, 1020, 1022, 1020, 1022, 1020, 1022, 1020, 1022, 1020, 1022, 1020, 1022, 1020, 1022, 1020, 1022, 1020], [1020, 1022, 1020, 1022, 1020, 1022, 1020, 1022, 1020, 1022, 1020, 1022, 1020, 1022, 1020, 1022, 1020, 1022, 1020, 1022, 1020], 0, false, 0, 210, 21, 0⟩
def c10st34 : State := ⟨420, 0, 0, -24, 0, 1002, 1012, 1022, 1032, 1042, [1020, 1022, 1020, 1022, 1020, 1022, 1020, 1022, 1020, 1022, 1020, 1022, 1020, 1022, 1020, 1022, 1020, 1022, 1020, 1022, 1020, 1022, 1020, 1022], [1020, 1022, 1020, 1022, 1020, 1022, 1020, 1022, 1020, 1022, 1020, 1022, 1020, 1022, 1020, 1022, 1020, 1022, 1020, 1022, 1020, 1022, 1020, 1022], 0, false, 0, 240, 24, 0⟩
def c10st35 : State := ⟨432, 0, 0, -26, 0, 1022, 1032, 1042, 1000, 1010, [1020, 1022, 1020, 1022, 1020, 1022, 1020, 1022, 1020, 1022, 1020, 1022, 1020, 1022, 1020, 1022, 1020, 1022, 1020, 1022, 1020, 1022, 1020, 1022, 1020, 1022], [1020, 1022, 1020, 1022, 1020, 1022, 1020, 1022, 1020, 1022, 1020, 1022, 1020, 1022, 1020, 1022, 1020, 1022, 1020, 1022, 1020, 1022, 1020, 1022, 1020, 1022], 0, false, 0, 260, 26, 0⟩
def c10st36 : State := ⟨444, 0, 0, -28, 0, 1042, 1000, 1010, 1020, 1030, [1020, 1022, 1020, 1022, 1020, 1022, 1020, 1022, 1020, 1022, 1020, 1022, 1020, 1022, 1020, 1022, 1020, 1022, 1020, 1022, 1020, 1022, 1020, 1022, 1020, 1022, 1020, 1022], [1020, 1022, 1020, 1022, 1020, 1022, 1020, 1022, 1020, 1022, 1020, 1022, 1020, 1022, 1020, 1022, 1020, 1022, 1020, 1022, 1020, 1022, 1020, 1022, 1020, 1022, 1020, 1022], 0, false, 0, 280, 28, 0⟩
def c10st37 : State := ⟨454, 0, 0, -30, 0, 1042, 1000, 1010, 1020, 1030, [1020, 1022, 1020, 1022, 1020, 1022, 1020, 1022, 1020, 1022, 1020, 1022, 1020, 1022, 1020, 1022, 1020, 1022, 1020, 1022, 1020, 1022, 1020, 1022, 1020, 1022, 1020, 1022, 1020, 1022], [1020, 1022, 1020, 1022, 1020, 1022, 1020, 1022, 1020, 1022, 1020, 1022, 1020, 1022, 1020, 1022, 1020, 1022, 1020, 1022, 1020, 1022, 1020, 1022, 1020, 1022, 1020, 1022, 1020, 1022], 0, false, 0, 300, 30, 0⟩


def c1tk0 : List ℚ := [1990, 1980, 1970, 1960, 1950, 1940, 1930, 1920, 1910, 1900, 1890, 1880]
def c1tk1 : List ℚ := [1870, 1860, 1850, 1840, 1830, 1820, 1810, 1800, 1790, 1780, 1770, 1760]
def c1tk2 : List ℚ := [1750, 1740, 1730, 1720, 1710, 1700, 1690, 1680, 1670, 1660, 1650, 1640]
def c1tk3 : List ℚ := [1630, 1620, 1610, 1600, 1590, 1580, 1570, 1560, 1550, 1540, 1530, 1520]
def c1tk4 : List ℚ := [1510, 1500, 1490, 1480, 1470, 1460, 1450, 1440, 1430, 1420, 1410, 1400]
def c1tk5 : List ℚ := [1390, 1380, 1370, 1360, 1350, 1340, 1330, 1320, 1310, 1300, 1290, 1280]
def c1tk6 : List ℚ := [1270, 1260, 1250, 1240, 1230, 1220, 1210, 1200, 1190, 1180, 1170, 1160]
def c1tk7 : List ℚ := [1150, 1140, 1130, 1120, 1110, 1100, 1090, 1080, 1070, 1060]

def c1st0 : State := ⟨12, 0, 0, 52, 0, 1920, 1910, 1900, 1890, 1880, [], [], 0, false, 0, 0, 0, 0⟩
def c1st1 : State := ⟨24, 0, 0, 40, 0, 1800, 1790, 1780, 1770, 1760, [], [], 0, false, 0, 0, 0, 0⟩
def c1st2 : State := ⟨36, 0, 0, 28, 0, 1680, 1670, 1660, 1650, 1640, [], [], 0, false, 0, 0, 0, 0⟩
def c1st3 : State := ⟨48, 0, 0, 16, 0, 1560, 1550, 1540, 1530, 1520, [], [], 0, false, 0, 0, 0, 0⟩
def c1st4 : State := ⟨60, 0, 0, 4, 0, 1440, 1430, 1420, 1410, 1400, [], [], 0, false, 0, 0, 0, 0⟩
def c1st5 : State := ⟨72, 0, 0, -8, 0, 1320, 1310, 1300, 1290, 1280, [1370, 1360, 1350, 1340, 1330, 1320, 1310, 1300], [1370, 1360, 1350, 1340, 1330, 1320, 1310, 1300], 0, false, 0, -80, 8, 0⟩
def c1st6 : State := ⟨84, 0, 0, -20, 0, 1200, 1190, 1180, 1170, 1160, [1370, 1360, 1350, 1340, 1330, 1320, 1310, 1300, 1290, 1280, 1270, 1260, 1250, 1240, 1230, 1220, 1210, 1200, 1190, 1180], [1370, 1360, 1350, 1340, 1330, 1320, 1310, 1300, 1290, 1280, 1270, 1260, 1250, 1240, 1230, 1220, 1210, 1200, 1190, 1180], 0, false, 0, -200, 20, 0⟩
def c1st7 : State := ⟨94, 0, 0, -30, 0, 1100, 1090, 1080, 1070, 1060, [1370, 1360, 1350, 1340, 1330, 1320, 1310, 1300, 1290, 1280, 1270, 1260, 1250, 1240, 1230, 1220, 1210, 1200, 1190, 1180, 1170, 1160, 1150, 1140, 1130, 1120, 1110, 1100, 1090, 1080], [1370, 1360, 1350, 1340, 1330, 1320, 1310, 1300, 1290, 1280, 1270, 1260, 1250, 1240, 1230, 1220, 1210, 1200, 1190, 1180, 1170, 1160, 1150, 1140, 1130, 1120, 1110, 1100, 1090, 1080], 0, false, 0, -300, 30, 0⟩


def c6tk0 : List ℚ := [10, 20, 30, 40, 50, 60, 70, 80, 90, 100, 110, 120]
def c6tk1 : List ℚ := [130, 140, 150, 160, 170, 180, 190, 200, 210, 220, 230, 240]
def c6tk2 : List ℚ := [250, 260, 270, 280, 290, 300, 310, 320, 330, 340, 350, 360]
def c6tk3 : List ℚ := [370, 380, 390, 400, 410, 420, 430, 440, 450, 460, 470, 480]
def c6tk4 : List ℚ := [490, 500, 510, 520, 530, 540, 550, 560, 570, 580, 590, 600]
def c6tk5 : List ℚ := [610, 620, 630, 640, 650, 660, 670, 680, 690, 700, 710, 720]
def c6tk6 : List ℚ := [730, 740, 750, 760, 770, 780, 790, 800, 810, 820, 830, 840]
def c6tk7 : List ℚ := [850, 860, 870, 880, 890, 900, 910, 920, 930, 940]

def c6st0 : State := ⟨12, 0, 0, 51, 0, 80, 90, 100, 110, 120, [], [], 0, false, 0, 0, 0, 0⟩
def c6st1 : State := ⟨24, 0, 0, 39, 0, 200, 210, 220, 230, 240, [], [], 0, false, 0, 0, 0, 0⟩
def c6st2 : State := ⟨36, 0, 0, 27, 0, 320, 330, 340, 350, 360, [], [], 0, false, 0, 0, 0, 0⟩
def c6st3 : State := ⟨48, 0, 0, 15, 0, 440, 450, 460, 470, 480, [], [], 0, false, 0, 0, 0, 0⟩
def c6st4 : State := ⟨60, 0, 0, 3, 0, 560, 570, 580, 590, 600, [], [], 0, false, 0, 0, 0, 0⟩
def c6st5 : State := ⟨72, 0, 0, -9, 0, 680, 690, 700, 710, 720, [620, 630, 640, 650, 660, 670, 680, 690, 700], [620, 630, 640, 650, 660, 670, 680, 690, 700], 0, false, 0, 90, 9, 0⟩
def c6st6 : State := ⟨84, 0, 0, -21, 0, 800, 810, 820, 830, 840, [620, 630, 640, 650, 660, 670, 680, 690, 700, 710, 720, 730, 740, 750, 760, 770, 780, 790, 800, 810, 820], [620, 630, 640, 650, 660, 670, 680, 690, 700, 710, 720, 730, 740, 750, 760, 770, 780, 790, 800, 810, 820], 0, false, 0, 210, 21, 0⟩
def c6st7 : State := ⟨94, 0, 0, -31, 940, 900, 910, 920, 930, 940, [620, 630, 640, 650, 660, 670, 680, 690, 700, 710, 720, 730, 740, 750, 760, 770, 780, 790, 800, 810, 820, 830, 840, 850, 860, 870, 880, 890, 900, 910, 920], [620, 630, 640, 650, 660, 670, 680, 690, 700, 710, 720, 730, 740, 750, 760, 770, 780, 790, 800, 810, 820, 830, 840, 850, 860, 870, 880, 890, 900, 910, 920], 10, true, 620, 310, 31, 0⟩


def c7atk0 : List ℚ := [10, 20, 30, 40, 50, 60, 70, 80, 90, 100, 110, 120]
def c7atk1 : List ℚ := [130, 140, 150, 160, 170, 180, 190, 200, 210, 220, 230, 240]
def c7atk2 : List ℚ := [250, 260, 270, 280, 290, 300, 310, 320, 330, 340, 350, 360]
def c7atk3 : List ℚ := [370, 380, 390, 400, 410, 420, 430, 440, 450, 460, 470, 480]
def c7atk4 : List ℚ := [490, 500, 510, 520, 530, 540, 550, 560, 570, 580, 590, 600]
def c7atk5 : List ℚ := [610, 620, 630, 640]

def c7ast0 : State := ⟨12, 0, 0, 51, 0, 80, 90, 100, 110, 120, [], [], 0, false, 0, 0, 0, 0⟩
def c7ast1 : State := ⟨24, 0, 0, 39, 0, 200, 210, 220, 230, 240, [], [], 0, false, 0, 0, 0, 0⟩
def c7ast2 : State := ⟨36, 0, 0, 27, 0, 320, 330, 340, 350, 360, [], [], 0, false, 0, 0, 0, 0⟩
def c7ast3 : State := ⟨48, 0, 0, 15, 0, 440, 450, 460, 470, 480, [], [], 0, false, 0, 0, 0, 0⟩
def c7ast4 : State := ⟨60, 0, 0, 3, 0, 560, 570, 580, 590, 600, [], [], 0, false, 0, 0, 0, 0⟩
def c7ast5 : State := ⟨64, 0, 0, -1, 0, 600, 610, 620, 630, 640, [620], [620], 0, false, 0, 10, 1, 0⟩


def c8tk0 : List ℚ := [10, 20, 30, 40, 50, 60, 70, 80, 90, 100, 110, 120]
def c8tk1 : List ℚ := [130, 140, 150, 160, 170, 180, 190, 200, 210, 220, 230, 240]
def c8tk2 : List ℚ := [250, 260, 270, 280, 290, 300, 310, 320, 330, 340, 350, 360]
def c8tk3 : List ℚ := [370, 380, 390, 400, 410, 420, 430, 440, 450, 460, 470, 480]
def c8tk4 : List ℚ := [490, 500, 510, 520, 530, 540, 550, 560, 570, 580, 590, 600]
def c8tk5 : List ℚ := [610, 620, 630, 640, 650, 660, 670, 680, 690, 700, 710, 720]
def c8tk6 : List ℚ := [730, 740, 765, 790, 815, 840, 865, 890, 915, 940, 965, 990]
def c8tk7 : List ℚ := [1015, 1040, 1065, 1090, 1115, 1140, 1165, 1190, 1215, 1240, 1265, 1290]
def c8tk8 : List ℚ := [1315]

def c8st0 : State := ⟨12, 0, 0, 51, 0, 80, 90, 100, 110, 120, [], [], 0, false, 0, 0, 0, 0⟩
def c8st1 : State := ⟨24, 0, 0, 39, 0, 200, 210, 220, 230, 240, [], [], 0, false, 0, 0, 0, 0⟩
def c8st2 : State := ⟨36, 0, 0, 27, 0, 320, 330, 340, 350, 360, [], [], 0, false, 0, 0, 0, 0⟩
def c8st3 : State := ⟨48, 0, 0, 15, 0, 440, 450, 460, 470, 480, [], [], 0, false, 0, 0, 0, 0⟩
def c8st4 : State := ⟨60, 0, 0, 3, 0, 560, 570, 580, 590, 600, [], [], 0, false, 0, 0, 0, 0⟩
def c8st5 : State := ⟨72, 0, 0, -9, 0, 680, 690, 700, 710, 720, [620, 630, 640, 650, 660, 670, 680, 690, 700], [620, 630, 640, 650, 660, 670, 680, 690, 700], 0, false, 0, 90, 9, 0⟩
def c8st6 : State := ⟨84, 0, 0, -18, 0, 890, 915, 940, 965, 990, [620, 630, 640, 650, 660, 670, 680, 690, 700, 710, 720, 790, 815, 840, 865, 890, 915, 940], [620, 630, 640, 650, 660, 670, 680, 690, 700, 710, 720, 790, 815, 840, 865, 890, 915, 940], 0, false, 0, 110, 11, 7⟩
def c8st7 : State := ⟨96, 0, 0, -30, 0, 1190, 1215, 1240, 1265, 1290, [620, 630, 640, 650, 660, 670, 680, 690, 700, 710, 720, 790, 815, 840, 865, 890, 915, 940, 965, 990, 1015, 1040, 1065, 1090, 1115, 1140, 1165, 1190, 1215, 1240], [620, 630, 640, 650, 660, 670, 680, 690, 700, 710, 720, 790, 815, 840, 865, 890, 915, 940, 965, 990, 1015, 1040, 1065, 1090, 1115, 1140, 1165, 1190, 1215, 1240], 0, false, 0, 110, 11, 19⟩
def c8st8 : State := ⟨97, 0, 0, -31, 0, 1215, 1240, 1265, 1290, 1315, [620, 630, 640, 650, 660, 670, 680, 690, 700, 710, 720, 790, 815, 840, 865, 890, 915, 940, 965, 990, 1015, 1040, 1065, 1090, 1115, 1140, 1165, 1190, 1215, 1240, 1265], [620, 630, 640, 650, 660, 670, 680, 690, 700, 710, 720, 790, 815, 840, 865, 890, 915, 940, 965, 990, 1015, 1040, 1065, 1090, 1115, 1140, 1165, 1190, 1215, 1240, 1265], 0, false, 0, 110, 11, 20⟩


/-- The reachable state just before the validation-triggering C10 call. -/
def c10Pre : State := runCycles defaultConfig (init defaultConfig) c10Ticks

/-- The C10 state after the window shift of the 455th call (t = 1040). -/
def c10Shifted : State := shiftWindow c10Pre 1040

/-- The C10 state after both skip-gate pre-decrements. -/
def c10Passed : State :=
  { c10Shifted with nJavaScriptSkip := c10Shifted.nJavaScriptSkip - 1,
                    nSkip := c10Shifted.nSkip - 1 }

/-- The C10 state after the change-tracking block (this is the call that
primes `_m_ms` from the running mean). -/
def c10Tracked : State :=
  changeTrack defaultConfig c10Passed (avemsVal c10Passed) (windowGrouping c10Passed)

/-- The C10 state handed to `__validate` (modulo the tUpdate write). -/
def c10Stored : State := storeSample defaultConfig c10Tracked

/-- The reachable state just before the validation-triggering C1 call. -/
def c1Pre : State := runCycles defaultConfig (init defaultConfig) c1Ticks

/-- The C1 state after the window shift of the 95th call (t = 1050). -/
def c1Shifted : State := shiftWindow c1Pre 1050

/-- The C1 state after both skip-gate pre-decrements. -/
def c1Passed : State :=
  { c1Shifted with nJavaScriptSkip := c1Shifted.nJavaScriptSkip - 1,
                   nSkip := c1Shifted.nSkip - 1 }

/-- The C1 state after the change-tracking block (priming `_m_ms` to -10
from the running mean of the decreasing lattice). -/
def c1Tracked : State :=
  changeTrack defaultConfig c1Passed (avemsVal c1Passed) (windowGrouping c1Passed)

/-- The C1 state after the store block. -/
def c1Stored : State := storeSample defaultConfig c1Tracked

/-- The C1 state on which `__validate` runs (tUpdate already written). -/
def c1Val : State := { c1Stored with tUpdate := 1050 }

/-- Running no timestamps changes nothing. -/
theorem runCycles_nil (cfg : Config) (s : State) : runCycles cfg s [] = s := rfl

/-- Peeling one timestamp off a cycle run. -/
theorem runCycles_cons (cfg : Config) (s : State) (t : ℚ) (ts : List ℚ) :
    runCycles cfg s (t :: ts) = runCycles cfg (add cfg s t) ts := rfl

/-- Appending timestamp lists composes the cycle runs. -/
theorem runCycles_append (cfg : Config) (s : State) (l1 l2 : List ℚ) :
    runCycles cfg s (l1 ++ l2) = runCycles cfg (runCycles cfg s l1) l2 := by
  simp [runCycles, List.foldl_append]

/-- A run consisting only of countCycle events is a cycle run. -/
theorem run_cycleMap (cfg : Config) (ts : List ℚ) :
    run cfg (ts.map Event.cycle) = runCycles cfg (init cfg) ts := by
  simp [run, runCycles, List.foldl_map, stepEv, countCycle]

/-- Splitting an event run at an append. -/
theorem run_append (cfg : Config) (l1 l2 : List Event) :
    run cfg (l1 ++ l2) = l2.foldl (stepEv cfg) (run cfg l1) := by
  simp [run, List.foldl_append]

/-- A call whose shifted window is not tightly grouped only shifts the
window (and advances the cycle counter, which is part of the shift). -/
theorem add_not_tight (cfg : Config) (s : State) (t : ℚ)
    (h : ¬ windowGrouping (shiftWindow s t) < cfg.TIGHTGROUPMS) :
    add cfg s t = shiftWindow s t := by
  simp [add, h]

/-- A tight call still absorbed by the one-time startup gate decrements
only that gate (the caller-skip gate is not even decremented). -/
theorem add_startup_skip (cfg : Config) (s : State) (t : ℚ)
    (h1 : windowGrouping (shiftWindow s t) < cfg.TIGHTGROUPMS)
    (h2 : 1 ≤ s.nJavaScriptSkip) :
    add cfg s t = { shiftWindow s t with nJavaScriptSkip := s.nJavaScriptSkip - 1 } := by
  have h3 : ¬ (s.nJavaScriptSkip - 1 < 0) := by omega
  simp only [shiftWindow] at h1
  simp only [add, addTight, shiftWindow]
  rw [if_pos h1, if_neg h3]

/-- A tight call past the startup gate but absorbed by the caller-skip
gate decrements both gates and does nothing else. -/
theorem add_caller_skip (cfg : Config) (s : State) (t : ℚ)
    (h1 : windowGrouping (shiftWindow s t) < cfg.TIGHTGROUPMS)
    (h2 : s.nJavaScriptSkip ≤ 0) (h3 : 1 ≤ s.nSkip) :
    add cfg s t = { shiftWindow s t with
      nJavaScriptSkip := s.nJavaScriptSkip - 1, nSkip := s.nSkip - 1 } := by
  have h4 : s.nJavaScriptSkip - 1 < 0 := by omega
  have h5 : ¬ (s.nSkip - 1 < 0) := by omega
  simp only [shiftWindow] at h1
  simp only [add, addTight, shiftWindow]
  rw [if_pos h1, if_pos h4, if_neg h5]

/-- A tight call that passes both skip gates runs the gated body on the
state with both gates decremented. -/
theorem add_gates_pass (cfg : Config) (s : State) (t : ℚ)
    (h1 : windowGrouping (shiftWindow s t) < cfg.TIGHTGROUPMS)
    (h2 : s.nJavaScriptSkip ≤ 0) (h3 : s.nSkip ≤ 0) :
    add cfg s t = addGated cfg
      { shiftWindow s t with
        nJavaScriptSkip := s.nJavaScriptSkip - 1, nSkip := s.nSkip - 1 } t := by
  have h4 : s.nJavaScriptSkip - 1 < 0 := by omega
  have h5 : s.nSkip - 1 < 0 := by omega
  simp only [shiftWindow] at h1
  simp only [add, addTight, shiftWindow]
  rw [if_pos h1, if_pos h4, if_pos h5]

/-- The gated body drops a low-rate sample (implied rate at or below the
floor) without any further state change. -/
theorem addGated_slow (cfg : Config) (s : State) (t : ℚ)
    (h : ¬ avemsVal s < 1000 / cfg.LOWESTVALIDHZ) :
    addGated cfg s t = s := by
  simp [addGated, h]

/-- The change tracker bumps the consecutive-change counter on a deviating
sample (folding nothing), and otherwise zeroes the counter and folds the
sample into the running mean, possibly seeding `_m_ms`. -/
theorem changeTrack_cases (cfg : Config) (s : State) (av g : ℚ) :
    ((10 < s.m_nms ∧ cfg.MSCHANGE < |av - s.m_summs / (s.m_nms : ℚ)|) ∧
      changeTrack cfg s av g = { s with m_nChange := s.m_nChange + 1 }) ∨
    (¬ (10 < s.m_nms ∧ cfg.MSCHANGE < |av - s.m_summs / (s.m_nms : ℚ)|) ∧
      ∃ newms, changeTrack cfg s av g =
        { s with m_nChange := 0, m_summs := s.m_summs + av,
                 m_nms := s.m_nms + 1, m_ms := newms }) := by
  by_cases h : 10 < s.m_nms ∧ cfg.MSCHANGE < |av - s.m_summs / (s.m_nms : ℚ)|
  · left
    refine ⟨h, ?_⟩
    simp only [changeTrack]
    rw [if_pos h]
  · right
    refine ⟨h, ?_⟩
    simp only [changeTrack]
    rw [if_neg h]
    split
    · exact ⟨_, rfl⟩
    · exact ⟨s.m_ms, rfl⟩

/-- Fields not owned by the change tracker are untouched by it. -/
theorem changeTrack_eff (cfg : Config) (s : State) (av g : ℚ) :
    (changeTrack cfg s av g).cycleCount = s.cycleCount ∧
    (changeTrack cfg s av g).nJavaScriptSkip = s.nJavaScriptSkip ∧
    (changeTrack cfg s av g).nSkip = s.nSkip ∧
    (changeTrack cfg s av g).nSkipBase = s.nSkipBase ∧
    (changeTrack cfg s av g).tUpdate = s.tUpdate ∧
    (changeTrack cfg s av g).m_D = s.m_D ∧
    (changeTrack cfg s av g).m_S = s.m_S ∧
    (changeTrack cfg s av g).m_vi = s.m_vi ∧
    (changeTrack cfg s av g).m_tvsync = s.m_tvsync ∧
    (changeTrack cfg s av g).L0 = s.L0 ∧
    (changeTrack cfg s av g).L1 = s.L1 ∧
    (changeTrack cfg s av g).L2 = s.L2 ∧
    (changeTrack cfg s av g).L3 = s.L3 ∧
    (changeTrack cfg s av g).L4 = s.L4 := by
  rcases changeTrack_cases cfg s av g with ⟨_, h⟩ | ⟨_, newms, h⟩ <;> rw [h] <;>
    exact ⟨rfl, rfl, rfl, rfl, rfl, rfl, rfl, rfl, rfl, rfl, rfl, rfl, rfl, rfl⟩

/-- The store block either plainly appends (below capacity) or first cuts
both sequences to their even halves and bumps the stride; in both cases
the new raw middle time and smoothed mean are appended in lockstep and
the skip counter is reloaded from the stride. -/
theorem storeSample_cases (cfg : Config) (s : State) :
    (s.m_D.length < cfg.MAXSTORE ∧ storeSample cfg s =
      { s with m_D := s.m_D ++ [s.L2],
               m_S := s.m_S ++ [(s.L0 + s.L1 + s.L2 + s.L3 + s.L4) / 5],
               nSkip := s.nSkipBase }) ∨
    (cfg.MAXSTORE ≤ s.m_D.length ∧ storeSample cfg s =
      { s with m_D := cut s.m_D ++ [s.L2],
               m_S := cut s.m_S ++ [(s.L0 + s.L1 + s.L2 + s.L3 + s.L4) / 5],
               nSkipBase := s.nSkipBase * 2 + 1,
               nSkip := s.nSkipBase * 2 + 1 }) := by
  by_cases h : cfg.MAXSTORE ≤ s.m_D.length
  · right
    exact ⟨h, by simp [storeSample, h]⟩
  · left
    exact ⟨by omega, by simp [storeSample, h]⟩

/-- Fields not owned by the store block are untouched by it. -/
theorem storeSample_eff (cfg : Config) (s : State) :
    (storeSample cfg s).cycleCount = s.cycleCount ∧
    (storeSample cfg s).nJavaScriptSkip = s.nJavaScriptSkip ∧
    (storeSample cfg s).tUpdate = s.tUpdate ∧
    (storeSample cfg s).m_ms = s.m_ms ∧
    (storeSample cfg s).m_vi = s.m_vi ∧
    (storeSample cfg s).m_tvsync = s.m_tvsync ∧
    (storeSample cfg s).m_summs = s.m_summs ∧
    (storeSample cfg s).m_nms = s.m_nms ∧
    (storeSample cfg s).m_nChange = s.m_nChange := by
  rcases storeSample_cases cfg s with ⟨_, h⟩ | ⟨_, h⟩ <;> rw [h] <;>
    exact ⟨rfl, rfl, rfl, rfl, rfl, rfl, rfl, rfl, rfl⟩

/-- The validator either accepts, writing the refit slope, the adjusted
timebase and the validated flag, or fully resets. -/
theorem validate_cases (s : State) :
    (fitMax s - fitMin s < fitM s / 2 ∧ validate s =
      { s with m_ms := fitM s, m_tvsync := fitTb s + fitMin s, m_vi := true }) ∨
    (¬ fitMax s - fitMin s < fitM s / 2 ∧ validate s = State.cleared s.nJavaScriptSkip) := by
  by_cases h : fitMax s - fitMin s < fitM s / 2
  · left
    exact ⟨h, by simp [validate, h]⟩
  · right
    exact ⟨h, by simp [validate, resetOf, h]⟩

/-- The gated body either leaves the cycle counter alone or ends in a full
reset that keeps only the startup-skip counter. -/
theorem addGated_shape (cfg : Config) (s : State) (t : ℚ) :
    ((addGated cfg s t).cycleCount = s.cycleCount ∧
     (addGated cfg s t).nJavaScriptSkip = s.nJavaScriptSkip) ∨
    addGated cfg s t = State.cleared s.nJavaScriptSkip := by
  by_cases hA : avemsVal s < 1000 / cfg.LOWESTVALIDHZ
  · have e1 : addGated cfg s t =
        (if 20 < (changeTrack cfg s (avemsVal s) (windowGrouping s)).m_nChange then
          resetOf (changeTrack cfg s (avemsVal s) (windowGrouping s))
        else
          (if (storeSample cfg (changeTrack cfg s (avemsVal s) (windowGrouping s))).m_ms ≠ 0 ∧
              cfg.VALIDATEMS <
                t - (storeSample cfg (changeTrack cfg s (avemsVal s) (windowGrouping s))).tUpdate then
             validate { storeSample cfg (changeTrack cfg s (avemsVal s) (windowGrouping s)) with
               tUpdate := t }
           else storeSample cfg (changeTrack cfg s (avemsVal s) (windowGrouping s)))) := by
      simp only [addGated]
      rw [if_pos hA]
    obtain ⟨ecc, ejs, -⟩ := changeTrack_eff cfg s (avemsVal s) (windowGrouping s)
    rw [e1]
    split
    · right
      simp only [resetOf, ejs]
    · obtain ⟨scc, sjs, -⟩ :=
        storeSample_eff cfg (changeTrack cfg s (avemsVal s) (windowGrouping s))
      split

      · rcases validate_cases
          { storeSample cfg (changeTrack cfg s (avemsVal s) (windowGrouping s)) with
            tUpdate := t } with ⟨-, hv⟩ | ⟨-, hv⟩
        · rw [hv]
          left
          constructor
          · show (storeSample cfg (changeTrack cfg s (avemsVal s) (windowGrouping s))).cycleCount = _
            rw [scc, ecc]
          · show (storeSample cfg (changeTrack cfg s (avemsVal s) (windowGrouping s))).nJavaScriptSkip = _
            rw [sjs, ejs]
        · rw [hv]
          right
          show State.cleared
            (storeSample cfg (changeTrack cfg s (avemsVal s) (windowGrouping s))).nJavaScriptSkip = _
          rw [sjs, ejs]
      · left
        exact ⟨by rw [scc, ecc], by rw [sjs, ejs]⟩
  · rw [addGated_slow cfg s t hA]
    left
    exact ⟨rfl, rfl⟩

/-- Every countCycle call either advances the cycle counter by exactly one
or is an internal full reset keeping only the (decremented) startup-skip
counter. -/
theorem add_shape (cfg : Config) (s : State) (t : ℚ) :
    (add cfg s t).cycleCount = s.cycleCount + 1 ∨
    add cfg s t = State.cleared (s.nJavaScriptSkip - 1) := by
  by_cases h1 : windowGrouping (shiftWindow s t) < cfg.TIGHTGROUPMS
  · by_cases h2 : 1 ≤ s.nJavaScriptSkip
    · rw [add_startup_skip cfg s t h1 h2]
      left
      rfl
    · by_cases h3 : 1 ≤ s.nSkip
      · rw [add_caller_skip cfg s t h1 (by omega) h3]
        left
        rfl
      · rw [add_gates_pass cfg s t h1 (by omega) (by omega)]
        rcases addGated_shape cfg
            { shiftWindow s t with
              nJavaScriptSkip := s.nJavaScriptSkip - 1, nSkip := s.nSkip - 1 } t with
          ⟨hcc, -⟩ | hr
        · left
          rw [hcc]
          rfl
        · right
          rw [hr]
  · rw [add_not_tight cfg s t h1]
    left
    rfl

/-- A call whose window, when tightly grouped, implies a rate at or below
the floor leaves the sample store and the interval estimate untouched. -/
theorem add_no_admit_fields (cfg : Config) (s : State) (t : ℚ)
    (hslow : windowGrouping (shiftWindow s t) < cfg.TIGHTGROUPMS →
             1000 / cfg.LOWESTVALIDHZ ≤ avemsVal (shiftWindow s t)) :
    (add cfg s t).m_D = s.m_D ∧ (add cfg s t).m_S = s.m_S ∧
    (add cfg s t).m_ms = s.m_ms := by
  by_cases h1 : windowGrouping (shiftWindow s t) < cfg.TIGHTGROUPMS
  · by_cases h2 : 1 ≤ s.nJavaScriptSkip
    · rw [add_startup_skip cfg s t h1 h2]
      exact ⟨rfl, rfl, rfl⟩
    · by_cases h3 : 1 ≤ s.nSkip
      · rw [add_caller_skip cfg s t h1 (by omega) h3]
        exact ⟨rfl, rfl, rfl⟩
      · rw [add_gates_pass cfg s t h1 (by omega) (by omega)]
        rw [addGated_slow cfg
          { shiftWindow s t with
            nJavaScriptSkip := s.nJavaScriptSkip - 1, nSkip := s.nSkip - 1 } t
          (not_lt.mpr (hslow h1))]
        exact ⟨rfl, rfl, rfl⟩
  · rw [add_not_tight cfg s t h1]
    exact ⟨rfl, rfl, rfl⟩

/-- Feeding a stream whose tightly grouped windows all imply a rate at or
below the floor never stores a sample and never primes the interval. -/
theorem runCycles_slow_inert (cfg : Config) (ts : List ℚ) : ∀ s : State,
    (∀ i : Fin ts.length,
      windowGrouping (shiftWindow (runCycles cfg s (ts.take i)) (ts.get i)) <
          cfg.TIGHTGROUPMS →
      1000 / cfg.LOWESTVALIDHZ ≤
          avemsVal (shiftWindow (runCycles cfg s (ts.take i)) (ts.get i))) →
    (runCycles cfg s ts).m_D = s.m_D ∧ (runCycles cfg s ts).m_S = s.m_S ∧
    (runCycles cfg s ts).m_ms = s.m_ms := by
  induction ts with
  | nil =>
    intro s _
    exact ⟨rfl, rfl, rfl⟩
  | cons t rest ih =>
    intro s H
    have h0 : windowGrouping (shiftWindow s t) < cfg.TIGHTGROUPMS →
        1000 / cfg.LOWESTVALIDHZ ≤ avemsVal (shiftWindow s t) := by
      simpa using H ⟨0, Nat.succ_pos _⟩
    have hstep := add_no_admit_fields cfg s t h0
    have hrest := ih (add cfg s t) (fun i => by
      simpa [List.take_succ_cons, runCycles_cons] using H i.succ)
    rw [runCycles_cons]
    exact ⟨hrest.1.trans hstep.1, hrest.2.1.trans hstep.2.1, hrest.2.2.trans hstep.2.2⟩

/-- While the caller-skip counter is loaded with at least as many counts as
there are incoming tight calls, those calls are absorbed: the store is
unchanged and the counter simply counts down. -/
theorem runCycles_absorb (cfg : Config) (ts : List ℚ) : ∀ s : State,
    s.nJavaScriptSkip ≤ 0 → (ts.length : ℤ) ≤ s.nSkip →
    (∀ i : Fin ts.length,
      windowGrouping (shiftWindow (runCycles cfg s (ts.take i)) (ts.get i)) <
        cfg.TIGHTGROUPMS) →
    (runCycles cfg s ts).m_D = s.m_D ∧ (runCycles cfg s ts).m_S = s.m_S ∧
    (runCycles cfg s ts).nSkip = s.nSkip - ts.length ∧
    (runCycles cfg s ts).nJavaScriptSkip = s.nJavaScriptSkip - ts.length := by
  induction ts with
  | nil =>
    intro s _ _ _
    refine ⟨rfl, rfl, ?_, ?_⟩ <;> rw [runCycles_nil] <;> simp
  | cons t rest ih =>
    intro s hjs hlen H
    have h0 : windowGrouping (shiftWindow s t) < cfg.TIGHTGROUPMS := by
      simpa using H ⟨0, Nat.succ_pos _⟩
    have hlen' : ((rest.length : ℤ) + 1) ≤ s.nSkip := by
      have h := hlen
      simp only [List.length_cons] at h
      push_cast at h
      omega
    have hone : 1 ≤ s.nSkip := by omega
    have hstep := add_caller_skip cfg s t h0 hjs hone
    have hrest := ih (add cfg s t) (by rw [hstep]; show s.nJavaScriptSkip - 1 ≤ 0; omega)
      (by rw [hstep]; show (rest.length : ℤ) ≤ s.nSkip - 1; omega)
      (fun i => by simpa [List.take_succ_cons, runCycles_cons] using H i.succ)
    rw [runCycles_cons]
    refine ⟨hrest.1.trans (by rw [hstep]; exact rfl),
      hrest.2.1.trans (by rw [hstep]; exact rfl), ?_, ?_⟩
    · rw [hrest.2.2.1, hstep]
      show s.nSkip - 1 - (rest.length : ℤ) = s.nSkip - ((t :: rest).length : ℤ)
      simp only [List.length_cons]
      push_cast
      ring
    · rw [hrest.2.2.2, hstep]
      show s.nJavaScriptSkip - 1 - (rest.length : ℤ) =
        s.nJavaScriptSkip - ((t :: rest).length : ℤ)
      simp only [List.length_cons]
      push_cast
      ring

/-- `__cut` keeps exactly the even-indexed elements, so it halves the
length, rounding up. -/
theorem cut_length : ∀ l : List ℚ, (cut l).length = (l.length + 1) / 2
  | [] => rfl
  | [_] => by simp [cut]
  | a :: b :: rest => by
    simp only [cut, List.length_cons, cut_length rest]
    omega

/-- The store block preserves the store invariant whenever the capacity is
at least 2. -/
theorem storeInv_storeSample (cfg : Config) (s : State) (hM : 2 ≤ cfg.MAXSTORE)
    (h : StoreInv cfg s) : StoreInv cfg (storeSample cfg s) := by
  obtain ⟨hlen, hcap⟩ := h
  rcases storeSample_cases cfg s with ⟨hlt, e⟩ | ⟨hge, e⟩ <;> rw [e] <;>
    constructor <;> simp [List.length_append, cut_length, hlen] <;> omega

/-- A countCycle call preserves the store invariant whenever the capacity
is at least 2. -/
theorem storeInv_add (cfg : Config) (hM : 2 ≤ cfg.MAXSTORE) (s : State) (t : ℚ)
    (h : StoreInv cfg s) : StoreInv cfg (add cfg s t) := by
  have hcl : ∀ n : ℤ, StoreInv cfg (State.cleared n) := fun n => ⟨rfl, by
    show (0 : ℕ) ≤ cfg.MAXSTORE
    omega⟩
  by_cases h1 : windowGrouping (shiftWindow s t) < cfg.TIGHTGROUPMS
  · by_cases h2 : 1 ≤ s.nJavaScriptSkip
    · rw [add_startup_skip cfg s t h1 h2]
      exact h
    · by_cases h3 : 1 ≤ s.nSkip
      · rw [add_caller_skip cfg s t h1 (by omega) h3]
        exact h
      · rw [add_gates_pass cfg s t h1 (by omega) (by omega)]
        set s3 : State := { shiftWindow s t with
          nJavaScriptSkip := s.nJavaScriptSkip - 1, nSkip := s.nSkip - 1 } with hs3
        have h3inv : StoreInv cfg s3 := h
        by_cases hA : avemsVal s3 < 1000 / cfg.LOWESTVALIDHZ
        · have e1 : addGated cfg s3 t =
              (if 20 < (changeTrack cfg s3 (avemsVal s3) (windowGrouping s3)).m_nChange then
                resetOf (changeTrack cfg s3 (avemsVal s3) (windowGrouping s3))
              else
                (if (storeSample cfg (changeTrack cfg s3 (avemsVal s3) (windowGrouping s3))).m_ms ≠ 0 ∧
                    cfg.VALIDATEMS <
                      t - (storeSample cfg (changeTrack cfg s3 (avemsVal s3) (windowGrouping s3))).tUpdate then
                   validate { storeSample cfg (changeTrack cfg s3 (avemsVal s3) (windowGrouping s3)) with
                     tUpdate := t }
                 else storeSample cfg (changeTrack cfg s3 (avemsVal s3) (windowGrouping s3)))) := by
            simp only [addGated]
            rw [if_pos hA]
          rw [e1]
          obtain ⟨-, -, -, -, -, eD, eS, -⟩ := changeTrack_eff cfg s3 (avemsVal s3) (windowGrouping s3)
          have hct : StoreInv cfg (changeTrack cfg s3 (avemsVal s3) (windowGrouping s3)) := by
            constructor
            · rw [eD, eS]
              exact h3inv.1
            · rw [eD]
              exact h3inv.2
          have hss : StoreInv cfg
              (storeSample cfg (changeTrack cfg s3 (avemsVal s3) (windowGrouping s3))) :=
            storeInv_storeSample cfg _ hM hct
          split
          · exact hcl _
          · split
            · rcases validate_cases
                { storeSample cfg (changeTrack cfg s3 (avemsVal s3) (windowGrouping s3)) with
                  tUpdate := t } with ⟨-, hv⟩ | ⟨-, hv⟩
              · rw [hv]
                exact hss
              · rw [hv]
                exact hcl _
            · exact hss
        · rw [addGated_slow cfg s3 t hA]
          exact h3inv
  · rw [add_not_tight cfg s t h1]
    exact h

/-- For a positive modulus and a nonnegative dividend, the JavaScript
remainder lies in [0, ms). -/
theorem jsRem_bounds (a ms : ℚ) (hms : 0 < ms) (ha : 0 ≤ a) :
    0 ≤ jsRem a ms ∧ jsRem a ms < ms := by
  have hdiv : 0 ≤ a / ms := div_nonneg ha hms.le
  have hud : jsRem a ms = a - ms * (⌊a / ms⌋ : ℚ) := by
    simp [jsRem, jsTrunc, hdiv]
  have hfl : (⌊a / ms⌋ : ℚ) ≤ a / ms := Int.floor_le _
  have hfu : a / ms < (⌊a / ms⌋ : ℚ) + 1 := Int.lt_floor_add_one _
  have hmul : ms * (a / ms) = a := by
    field_simp
  constructor
  · rw [hud]
    nlinarith [mul_le_mul_of_nonneg_left hfl hms.le]
  · rw [hud]
    nlinarith [mul_lt_mul_of_pos_left hfu hms]

/-- With a positive fitted interval and nonnegative shifted dividends, all
drift-loop residuals fall in the half-open interval [-ms/2, ms/2). -/
theorem driftOffsets_range (D : List ℚ) (tb ms : ℚ) (hms : 0 < ms)
    (hD : ∀ d ∈ D, 0 ≤ d - tb + ms / 2) :
    ∀ off ∈ driftOffsets D tb (ms / 2) ms, -(ms / 2) ≤ off ∧ off < ms / 2 := by
  intro off hoff
  simp only [driftOffsets, List.mem_map] at hoff
  obtain ⟨d, hd, rfl⟩ := hoff
  have hd' : d ∈ D := List.drop_subset 1 D hd
  have hb := jsRem_bounds (d - tb + ms / 2) ms hms (hD d hd')
  constructor
  · linarith [hb.1]
  · linarith [hb.2]

/-- Invariant of the least-squares loop: `sxx` stays nonnegative and
`sx * sx` stays below (number of samples) * `sxx` (Cauchy-Schwarz). -/
theorem olsLoop_sx_sq_le (ms d0 : ℚ) :
    ∀ (l : List (ℚ × ℚ)) (prev : Option ℚ) (acc : OLSAcc) (n : ℚ), 0 ≤ n →
      0 ≤ acc.sxx → acc.sx * acc.sx ≤ n * acc.sxx →
      0 ≤ (olsLoop ms d0 l prev acc).sxx ∧
        (olsLoop ms d0 l prev acc).sx * (olsLoop ms d0 l prev acc).sx ≤
          (n + l.length) * (olsLoop ms d0 l prev acc).sxx := by
  intro l
  induction l with
  | nil =>
    intro prev acc n hn hQ hS
    simp only [olsLoop, List.length_nil, Nat.cast_zero, add_zero]
    exact ⟨hQ, hS⟩
  | cons hd rest ih =>
    obtain ⟨d, sm⟩ := hd
    intro prev acc n hn hQ hS
    have estep : olsLoop ms d0 ((d, sm) :: rest) prev acc =
        olsLoop ms d0 rest (some sm)
          ⟨acc.X + xStep ms sm prev,
           acc.sx + ((acc.X + xStep ms sm prev : ℤ) : ℚ),
           acc.sy + (d - d0),
           acc.sxx + ((acc.X + xStep ms sm prev : ℤ) : ℚ) *
             ((acc.X + xStep ms sm prev : ℤ) : ℚ),
           acc.sxy + ((acc.X + xStep ms sm prev : ℤ) : ℚ) * (d - d0)⟩ := rfl
    rw [estep]
    have hx : (0 : ℚ) ≤ ((acc.X + xStep ms sm prev : ℤ) : ℚ) *
        ((acc.X + xStep ms sm prev : ℤ) : ℚ) := mul_self_nonneg _
    have hstep := ih (some sm)
      ⟨acc.X + xStep ms sm prev,
       acc.sx + ((acc.X + xStep ms sm prev : ℤ) : ℚ),
       acc.sy + (d - d0),
       acc.sxx + ((acc.X + xStep ms sm prev : ℤ) : ℚ) *
         ((acc.X + xStep ms sm prev : ℤ) : ℚ),
       acc.sxy + ((acc.X + xStep ms sm prev : ℤ) : ℚ) * (d - d0)⟩
      (n + 1) (by linarith) (by dsimp only; linarith)
      (by
        dsimp only
        set x : ℚ := ((acc.X + xStep ms sm prev : ℤ) : ℚ) with hxdef
        rcases eq_or_lt_of_le hn with hn0 | hnpos
        · have hsx0 : acc.sx = 0 := by nlinarith [mul_self_nonneg acc.sx]
          rw [hsx0]
          nlinarith [mul_self_nonneg x]
        · nlinarith [sq_nonneg (n * x - acc.sx), mul_self_nonneg x, mul_pos hnpos hnpos])
    constructor
    · exact hstep.1
    · have hlen : ((((d, sm) :: rest).length : ℕ) : ℚ) = (rest.length : ℚ) + 1 := by
        simp
      calc (olsLoop ms d0 rest (some sm) _).sx * (olsLoop ms d0 rest (some sm) _).sx ≤
          (n + 1 + rest.length) * (olsLoop ms d0 rest (some sm) _).sxx := hstep.2
        _ = (n + (((d, sm) :: rest).length : ℕ)) * (olsLoop ms d0 rest (some sm) _).sxx := by
            rw [hlen]
            ring_nf

/-- Claim C10 support: the least-squares denominator is a nonnegative
quantity (N * sxx - sx * sx with N at least the number of summed points). -/
theorem olsDenom_nonneg_aux (ms : ℚ) (D S : List ℚ) : 0 ≤ olsDenom ms D S := by
  have h := olsLoop_sx_sq_le ms (D.headD 0) (D.zip S) none ⟨0, 0, 0, 0, 0⟩ 0
    le_rfl le_rfl (by norm_num)
  have hzl : (((D.zip S).length : ℕ) : ℚ) ≤ ((D.length : ℕ) : ℚ) := by
    have h1 : (D.zip S).length ≤ D.length := by
      rw [List.length_zip]
      exact Nat.min_le_left _ _
    exact_mod_cast h1
  unfold olsDenom olsAcc
  have h2 := h.2
  rw [zero_add] at h2
  nlinarith [h.1, h2, hzl]

set_option maxRecDepth 400000 in
unseal Rat.add Rat.mul Rat.sub Rat.inv in
theorem c10run0 : runCycles defaultConfig (init defaultConfig) c10tk0 = c10st0 := by decide

set_option maxRecDepth 400000 in
unseal Rat.add Rat.mul Rat.sub Rat.inv in
theorem c10run1 : runCycles defaultConfig c10st0 c10tk1 = c10st1 := by decide

set_option maxRecDepth 400000 in
unseal Rat.add Rat.mul Rat.sub Rat.inv in
theorem c10run2 : runCycles defaultConfig c10st1 c10tk2 = c10st2 := by decide

set_option maxRecDepth 400000 in
unseal Rat.add Rat.mul Rat.sub Rat.inv in
theorem c10run3 : runCycles defaultConfig c10st2 c10tk3 = c10st3 := by decide

set_option maxRecDepth 400000 in
unseal Rat.add Rat.mul Rat.sub Rat.inv in
theorem c10run4 : runCycles defaultConfig c10st3 c10tk4 = c10st4 := by decide

set_option maxRecDepth 400000 in
unseal Rat.add Rat.mul Rat.sub Rat.inv in
theorem c10run5 : runCycles defaultConfig c10st4 c10tk5 = c10st5 := by decide

set_option maxRecDepth 400000 in
unseal Rat.add Rat.mul Rat.sub Rat.inv in
theorem c10run6 : runCycles defaultConfig c10st5 c10tk6 = c10st6 := by decide

set_option maxRecDepth 400000 in
unseal Rat.add Rat.mul Rat.sub Rat.inv in
theorem c10run7 : runCycles defaultConfig c10st6 c10tk7 = c10st7 := by decide

set_option maxRecDepth 400000 in
unseal Rat.add Rat.mul Rat.sub Rat.inv in
theorem c10run8 : runCycles defaultConfig c10st7 c10tk8 = c10st8 := by decide

set_option maxRecDepth 400000 in
unseal Rat.add Rat.mul Rat.sub Rat.inv in
theorem c10run9 : runCycles defaultConfig c10st8 c10tk9 = c10st9 := by decide

set_option maxRecDepth 400000 in
unseal Rat.add Rat.mul Rat.sub Rat.inv in
theorem c10run10 : runCycles defaultConfig c10st9 c10tk10 = c10st10 := by decide

set_option maxRecDepth 400000 in
unseal Rat.add Rat.mul Rat.sub Rat.inv in
theorem c10run11 : runCycles defaultConfig c10st10 c10tk11 = c10st11 := by decide

set_option maxRecDepth 400000 in
unseal Rat.add Rat.mul Rat.sub Rat.inv in
theorem c10run12 : runCycles defaultConfig c10st11 c10tk12 = c10st12 := by decide

set_option maxRecDepth 400000 in
unseal Rat.add Rat.mul Rat.sub Rat.inv in
theorem c10run13 : runCycles defaultConfig c10st12 c10tk13 = c10st13 := by decide

set_option maxRecDepth 400000 in
unseal Rat.add Rat.mul Rat.sub Rat.inv in
theorem c10run14 : runCycles defaultConfig c10st13 c10tk14 = c10st14 := by decide

set_option maxRecDepth 400000 in
unseal Rat.add Rat.mul Rat.sub Rat.inv in
theorem c10run15 : runCycles defaultConfig c10st14 c10tk15 = c10st15 := by decide

set_option maxRecDepth 400000 in
unseal Rat.add Rat.mul Rat.sub Rat.inv in
theorem c10run16 : runCycles defaultConfig c10st15 c10tk16 = c10st16 := by decide

set_option maxRecDepth 400000 in
unseal Rat.add Rat.mul Rat.sub Rat.inv in
theorem c10run17 : runCycles defaultConfig c10st16 c10tk17 = c10st17 := by decide

set_option maxRecDepth 400000 in
unseal Rat.add Rat.mul Rat.sub Rat.inv in
theorem c10run18 : runCycles defaultConfig c10st17 c10tk18 = c10st18 := by decide

set_option maxRecDepth 400000 in
unseal Rat.add Rat.mul Rat.sub Rat.inv in
theorem c10run19 : runCycles defaultConfig c10st18 c10tk19 = c10st19 := by decide

set_option maxRecDepth 400000 in
unseal Rat.add Rat.mul Rat.sub Rat.inv in
theorem c10run20 : runCycles defaultConfig c10st19 c10tk20 = c10st20 := by decide

set_option maxRecDepth 400000 in
unseal Rat.add Rat.mul Rat.sub Rat.inv in
theorem c10run21 : runCycles defaultConfig c10st20 c10tk21 = c10st21 := by decide

set_option maxRecDepth 400000 in
unseal Rat.add Rat.mul Rat.sub Rat.inv in
theorem c10run22 : runCycles defaultConfig c10st21 c10tk22 = c10st22 := by decide

set_option maxRecDepth 400000 in
unseal Rat.add Rat.mul Rat.sub Rat.inv in
theorem c10run23 : runCycles defaultConfig c10st22 c10tk23 = c10st23 := by decide

set_option maxRecDepth 400000 in
unseal Rat.add Rat.mul Rat.sub Rat.inv in
theorem c10run24 : runCycles defaultConfig c10st23 c10tk24 = c10st24 := by decide

set_option maxRecDepth 400000 in
unseal Rat.add Rat.mul Rat.sub Rat.inv in
theorem c10run25 : runCycles defaultConfig c10st24 c10tk25 = c10st25 := by decide

set_option maxRecDepth 400000 in
unseal Rat.add Rat.mul Rat.sub Rat.inv in
theorem c10run26 : runCycles defaultConfig c10st25 c10tk26 = c10st26 := by decide

set_option maxRecDepth 400000 in
unseal Rat.add Rat.mul Rat.sub Rat.inv in
theorem c10run27 : runCycles defaultConfig c10st26 c10tk27 = c10st27 := by decide

set_option maxRecDepth 400000 in
unseal Rat.add Rat.mul Rat.sub Rat.inv in
theorem c10run28 : runCycles defaultConfig c10st27 c10tk28 = c10st28 := by decide

set_option maxRecDepth 400000 in
unseal Rat.add Rat.mul Rat.sub Rat.inv in
theorem c10run29 : runCycles defaultConfig c10st28 c10tk29 = c10st29 := by decide

set_option maxRecDepth 400000 in
unseal Rat.add Rat.mul Rat.sub Rat.inv in
theorem c10run30 : runCycles defaultConfig c10st29 c10tk30 = c10st30 := by decide

set_option maxRecDepth 400000 in
unseal Rat.add Rat.mul Rat.sub Rat.inv in
theorem c10run31 : runCycles defaultConfig c10st30 c10tk31 = c10st31 := by decide

set_option maxRecDepth 400000 in
unseal Rat.add Rat.mul Rat.sub Rat.inv in
theorem c10run32 : runCycles defaultConfig c10st31 c10tk32 = c10st32 := by decide

set_option maxRecDepth 400000 in
unseal Rat.add Rat.mul Rat.sub Rat.inv in
theorem c10run33 : runCycles defaultConfig c10st32 c10tk33 = c10st33 := by decide

set_option maxRecDepth 400000 in
unseal Rat.add Rat.mul Rat.sub Rat.inv in
theorem c10run34 : runCycles defaultConfig c10st33 c10tk34 = c10st34 := by decide

set_option maxRecDepth 400000 in
unseal Rat.add Rat.mul Rat.sub Rat.inv in
theorem c10run35 : runCycles defaultConfig c10st34 c10tk35 = c10st35 := by decide

set_option maxRecDepth 400000 in
unseal Rat.add Rat.mul Rat.sub Rat.inv in
theorem c10run36 : runCycles defaultConfig c10st35 c10tk36 = c10st36 := by decide

set_option maxRecDepth 400000 in
unseal Rat.add Rat.mul Rat.sub Rat.inv in
theorem c10run37 : runCycles defaultConfig c10st36 c10tk37 = c10st37 := by decide

set_option maxRecDepth 400000 in
unseal Rat.add Rat.mul Rat.sub Rat.inv in
theorem c10Ticks_eq : c10Ticks = c10tk0 ++ (c10tk1 ++ (c10tk2 ++ (c10tk3 ++ (c10tk4 ++ (c10tk5 ++ (c10tk6 ++ (c10tk7 ++ (c10tk8 ++ (c10tk9 ++ (c10tk10 ++ (c10tk11 ++ (c10tk12 ++ (c10tk13 ++ (c10tk14 ++ (c10tk15 ++ (c10tk16 ++ (c10tk17 ++ (c10tk18 ++ (c10tk19 ++ (c10tk20 ++ (c10tk21 ++ (c10tk22 ++ (c10tk23 ++ (c10tk24 ++ (c10tk25 ++ (c10tk26 ++ (c10tk27 ++ (c10tk28 ++ (c10tk29 ++ (c10tk30 ++ (c10tk31 ++ (c10tk32 ++ (c10tk33 ++ (c10tk34 ++ (c10tk35 ++ (c10tk36 ++ (c10tk37))))))))))))))))))))))))))))))))))))) := by decide

theorem c10State_eq : runCycles defaultConfig (init defaultConfig) c10Ticks = c10st37 := by
  rw [c10Ticks_eq, runCycles_append, c10run0, runCycles_append, c10run1, runCycles_append, c10run2, runCycles_append, c10run3, runCycles_append, c10run4, runCycles_append, c10run5, runCycles_append, c10run6, runCycles_append, c10run7, runCycles_append, c10run8, runCycles_append, c10run9, runCycles_append, c10run10, runCycles_append, c10run11, runCycles_append, c10run12, runCycles_append, c10run13, runCycles_append, c10run14, runCycles_append, c10run15, runCycles_append, c10run16, runCycles_append, c10run17, runCycles_append, c10run18, runCycles_append, c10run19, runCycles_append, c10run20, runCycles_append, c10run21, runCycles_append, c10run22, runCycles_append, c10run23, runCycles_append, c10run24, runCycles_append, c10run25, runCycles_append, c10run26, runCycles_append, c10run27, runCycles_append, c10run28, runCycles_append, c10run29, runCycles_append, c10run30, runCycles_append, c10run31, runCycles_append, c10run32, runCycles_append, c10run33, runCycles_append, c10run34, runCycles_append, c10run35, runCycles_append, c10run36, c10run37]


set_option maxRecDepth 400000 in
unseal Rat.add Rat.mul Rat.sub Rat.inv in
theorem c1run0 : runCycles defaultConfig (init defaultConfig) c1tk0 = c1st0 := by decide

set_option maxRecDepth 400000 in
unseal Rat.add Rat.mul Rat.sub Rat.inv in
theorem c1run1 : runCycles defaultConfig c1st0 c1tk1 = c1st1 := by decide

set_option maxRecDepth 400000 in
unseal Rat.add Rat.mul Rat.sub Rat.inv in
theorem c1run2 : runCycles defaultConfig c1st1 c1tk2 = c1st2 := by decide

set_option maxRecDepth 400000 in
unseal Rat.add Rat.mul Rat.sub Rat.inv in
theorem c1run3 : runCycles defaultConfig c1st2 c1tk3 = c1st3 := by decide

set_option maxRecDepth 400000 in
unseal Rat.add Rat.mul Rat.sub Rat.inv in
theorem c1run4 : runCycles defaultConfig c1st3 c1tk4 = c1st4 := by decide

set_option maxRecDepth 400000 in
unseal Rat.add Rat.mul Rat.sub Rat.inv in
theorem c1run5 : runCycles defaultConfig c1st4 c1tk5 = c1st5 := by decide

set_option maxRecDepth 400000 in
unseal Rat.add Rat.mul Rat.sub Rat.inv in
theorem c1run6 : runCycles defaultConfig c1st5 c1tk6 = c1st6 := by decide

set_option maxRecDepth 400000 in
unseal Rat.add Rat.mul Rat.sub Rat.inv in
theorem c1run7 : runCycles defaultConfig c1st6 c1tk7 = c1st7 := by decide

set_option maxRecDepth 400000 in
unseal Rat.add Rat.mul Rat.sub Rat.inv in
theorem c1Ticks_eq : c1Ticks = c1tk0 ++ (c1tk1 ++ (c1tk2 ++ (c1tk3 ++ (c1tk4 ++ (c1tk5 ++ (c1tk6 ++ (c1tk7))))))) := by decide

theorem c1State_eq : runCycles defaultConfig (init defaultConfig) c1Ticks = c1st7 := by
  rw [c1Ticks_eq, runCycles_append, c1run0, runCycles_append, c1run1, runCycles_append, c1run2, runCycles_append, c1run3, runCycles_append, c1run4, runCycles_append, c1run5, runCycles_append, c1run6, c1run7]


set_option maxRecDepth 400000 in
unseal Rat.add Rat.mul Rat.sub Rat.inv in
theorem c6run0 : runCycles defaultConfig (init defaultConfig) c6tk0 = c6st0 := by decide

set_option maxRecDepth 400000 in
unseal Rat.add Rat.mul Rat.sub Rat.inv in
theorem c6run1 : runCycles defaultConfig c6st0 c6tk1 = c6st1 := by decide

set_option maxRecDepth 400000 in
unseal Rat.add Rat.mul Rat.sub Rat.inv in
theorem c6run2 : runCycles defaultConfig c6st1 c6tk2 = c6st2 := by decide

set_option maxRecDepth 400000 in
unseal Rat.add Rat.mul Rat.sub Rat.inv in
theorem c6run3 : runCycles defaultConfig c6st2 c6tk3 = c6st3 := by decide

set_option maxRecDepth 400000 in
unseal Rat.add Rat.mul Rat.sub Rat.inv in
theorem c6run4 : runCycles defaultConfig c6st3 c6tk4 = c6st4 := by decide

set_option maxRecDepth 400000 in
unseal Rat.add Rat.mul Rat.sub Rat.inv in
theorem c6run5 : runCycles defaultConfig c6st4 c6tk5 = c6st5 := by decide

set_option maxRecDepth 400000 in
unseal Rat.add Rat.mul Rat.sub Rat.inv in
theorem c6run6 : runCycles defaultConfig c6st5 c6tk6 = c6st6 := by decide

set_option maxRecDepth 400000 in
unseal Rat.add Rat.mul Rat.sub Rat.inv in
theorem c6run7 : runCycles defaultConfig c6st6 c6tk7 = c6st7 := by decide

set_option maxRecDepth 400000 in
unseal Rat.add Rat.mul Rat.sub Rat.inv in
theorem c6Ticks_eq : c6Ticks = c6tk0 ++ (c6tk1 ++ (c6tk2 ++ (c6tk3 ++ (c6tk4 ++ (c6tk5 ++ (c6tk6 ++ (c6tk7))))))) := by decide

theorem c6State_eq : runCycles defaultConfig (init defaultConfig) c6Ticks = c6st7 := by
  rw [c6Ticks_eq, runCycles_append, c6run0, runCycles_append, c6run1, runCycles_append, c6run2, runCycles_append, c6run3, runCycles_append, c6run4, runCycles_append, c6run5, runCycles_append, c6run6, c6run7]


set_option maxRecDepth 400000 in
unseal Rat.add Rat.mul Rat.sub Rat.inv in
theorem c7arun0 : runCycles defaultConfig (init defaultConfig) c7atk0 = c7ast0 := by decide

set_option maxRecDepth 400000 in
unseal Rat.add Rat.mul Rat.sub Rat.inv in
theorem c7arun1 : runCycles defaultConfig c7ast0 c7atk1 = c7ast1 := by decide

set_option maxRecDepth 400000 in
unseal Rat.add Rat.mul Rat.sub Rat.inv in
theorem c7arun2 : runCycles defaultConfig c7ast1 c7atk2 = c7ast2 := by decide

set_option maxRecDepth 400000 in
unseal Rat.add Rat.mul Rat.sub Rat.inv in
theorem c7arun3 : runCycles defaultConfig c7ast2 c7atk3 = c7ast3 := by decide

set_option maxRecDepth 400000 in
unseal Rat.add Rat.mul Rat.sub Rat.inv in
theorem c7arun4 : runCycles defaultConfig c7ast3 c7atk4 = c7ast4 := by decide

set_option maxRecDepth 400000 in
unseal Rat.add Rat.mul Rat.sub Rat.inv in
theorem c7arun5 : runCycles defaultConfig c7ast4 c7atk5 = c7ast5 := by decide

set_option maxRecDepth 400000 in
unseal Rat.add Rat.mul Rat.sub Rat.inv in
theorem c7aTicks_eq : c7aTicks = c7atk0 ++ (c7atk1 ++ (c7atk2 ++ (c7atk3 ++ (c7atk4 ++ (c7atk5))))) := by decide

theorem c7aState_eq : runCycles defaultConfig (init defaultConfig) c7aTicks = c7ast5 := by
  rw [c7aTicks_eq, runCycles_append, c7arun0, runCycles_append, c7arun1, runCycles_append, c7arun2, runCycles_append, c7arun3, runCycles_append, c7arun4, c7arun5]


set_option maxRecDepth 400000 in
unseal Rat.add Rat.mul Rat.sub Rat.inv in
theorem c8run0 : runCycles defaultConfig (init defaultConfig) c8tk0 = c8st0 := by decide

set_option maxRecDepth 400000 in
unseal Rat.add Rat.mul Rat.sub Rat.inv in
theorem c8run1 : runCycles defaultConfig c8st0 c8tk1 = c8st1 := by decide

set_option maxRecDepth 400000 in
unseal Rat.add Rat.mul Rat.sub Rat.inv in
theorem c8run2 : runCycles defaultConfig c8st1 c8tk2 = c8st2 := by decide

set_option maxRecDepth 400000 in
unseal Rat.add Rat.mul Rat.sub Rat.inv in
theorem c8run3 : runCycles defaultConfig c8st2 c8tk3 = c8st3 := by decide

set_option maxRecDepth 400000 in
unseal Rat.add Rat.mul Rat.sub Rat.inv in
theorem c8run4 : runCycles defaultConfig c8st3 c8tk4 = c8st4 := by decide

set_option maxRecDepth 400000 in
unseal Rat.add Rat.mul Rat.sub Rat.inv in
theorem c8run5 : runCycles defaultConfig c8st4 c8tk5 = c8st5 := by decide

set_option maxRecDepth 400000 in
unseal Rat.add Rat.mul Rat.sub Rat.inv in
theorem c8run6 : runCycles defaultConfig c8st5 c8tk6 = c8st6 := by decide

set_option maxRecDepth 400000 in
unseal Rat.add Rat.mul Rat.sub Rat.inv in
theorem c8run7 : runCycles defaultConfig c8st6 c8tk7 = c8st7 := by decide

set_option maxRecDepth 400000 in
unseal Rat.add Rat.mul Rat.sub Rat.inv in
theorem c8run8 : runCycles defaultConfig c8st7 c8tk8 = c8st8 := by decide

set_option maxRecDepth 400000 in
unseal Rat.add Rat.mul Rat.sub Rat.inv in
theorem c8Ticks_eq : c8Ticks = c8tk0 ++ (c8tk1 ++ (c8tk2 ++ (c8tk3 ++ (c8tk4 ++ (c8tk5 ++ (c8tk6 ++ (c8tk7 ++ (c8tk8)))))))) := by decide

theorem c8State_eq : runCycles defaultConfig (init defaultConfig) c8Ticks = c8st8 := by
  rw [c8Ticks_eq, runCycles_append, c8run0, runCycles_append, c8run1, runCycles_append, c8run2, runCycles_append, c8run3, runCycles_append, c8run4, runCycles_append, c8run5, runCycles_append, c8run6, runCycles_append, c8run7, c8run8]

/-- The gated body above the low-rate floor, written as the explicit chain
change tracking - possible reset - store - possible validation. -/
theorem addGated_fast (cfg : Config) (s : State) (t : ℚ)
    (hA : avemsVal s < 1000 / cfg.LOWESTVALIDHZ) :
    addGated cfg s t =
      (if 20 < (changeTrack cfg s (avemsVal s) (windowGrouping s)).m_nChange then
        resetOf (changeTrack cfg s (avemsVal s) (windowGrouping s))
      else
        (if (storeSample cfg (changeTrack cfg s (avemsVal s) (windowGrouping s))).m_ms ≠ 0 ∧
            cfg.VALIDATEMS <
              t - (storeSample cfg (changeTrack cfg s (avemsVal s) (windowGrouping s))).tUpdate then
           validate { storeSample cfg (changeTrack cfg s (avemsVal s) (windowGrouping s)) with
             tUpdate := t }
         else storeSample cfg (changeTrack cfg s (avemsVal s) (windowGrouping s)))) := by
  simp only [addGated]
  rw [if_pos hA]

/-- Claim C2: on every countCycle call the 5-slot window is shifted (the
oldest timestamp dropped, the new one appended) and the grouping is the
max of the four consecutive window deltas minus their min; when grouping
is at or above TIGHT_GROUP_MS (1.0 ms in the shipped configuration) the
call changes nothing beyond that shift and the per-call cycle count: no
sample is stored, the running mean, change counter and skip counters are
all untouched. -/
theorem C2_nontight_only_shifts (cfg : Config) (s : State) (t : ℚ)
    (h : cfg.TIGHTGROUPMS ≤ windowGrouping (shiftWindow s t)) :
    add cfg s t = { s with
      cycleCount := s.cycleCount + 1,
      L0 := s.L1, L1 := s.L2, L2 := s.L3, L3 := s.L4, L4 := t } ∧
    defaultConfig.TIGHTGROUPMS = 1 :=
  ⟨add_not_tight cfg s t (not_lt.mpr h), rfl⟩

set_option maxRecDepth 400000 in
unseal Rat.add Rat.mul Rat.sub Rat.inv in
/-- Witness for C2 at a concrete non-tight call. -/
theorem C2_nontight_only_shifts_witness :
    defaultConfig.TIGHTGROUPMS ≤ windowGrouping (shiftWindow (State.cleared 60) 5) ∧
    add defaultConfig (State.cleared 60) 5 =
      (⟨1, 0, 0, 60, 0, 0, 0, 0, 0, 5, [], [], 0, false, 0, 0, 0, 0⟩ : State) := by
  refine ⟨by decide, ?_⟩
  rw [(C2_nontight_only_shifts defaultConfig (State.cleared 60) 5 (by decide)).1]
  decide

/-- Claim C3: on a tight-grouped admission that passes the skip gates and
the low-rate floor, a deviating sample (running mean holding at least 11
samples and deviation above MS_CHANGE, 1.0 ms in the shipped
configuration) increments the consecutive-change counter and is not
folded into the running mean; otherwise the counter is zeroed and the
sample is folded in (sum and count); and the 21st consecutive deviating
admission (counter exceeding 20) performs a full internal reset. -/
theorem C3_change_tracking :
    defaultConfig.MSCHANGE = 1 ∧
    (∀ (cfg : Config) (s : State) (av g : ℚ),
      10 < s.m_nms → cfg.MSCHANGE < |av - s.m_summs / (s.m_nms : ℚ)| →
      changeTrack cfg s av g = { s with m_nChange := s.m_nChange + 1 }) ∧
    (∀ (cfg : Config) (s : State) (av g : ℚ),
      ¬ (10 < s.m_nms ∧ cfg.MSCHANGE < |av - s.m_summs / (s.m_nms : ℚ)|) →
      (changeTrack cfg s av g).m_nChange = 0 ∧
      (changeTrack cfg s av g).m_summs = s.m_summs + av ∧
      (changeTrack cfg s av g).m_nms = s.m_nms + 1) ∧
    (∀ (cfg : Config) (s : State) (t : ℚ),
      windowGrouping (shiftWindow s t) < cfg.TIGHTGROUPMS →
      s.nJavaScriptSkip ≤ 0 → s.nSkip ≤ 0 →
      avemsVal (shiftWindow s t) < 1000 / cfg.LOWESTVALIDHZ →
      10 < s.m_nms →
      cfg.MSCHANGE < |avemsVal (shiftWindow s t) - s.m_summs / (s.m_nms : ℚ)| →
      20 ≤ s.m_nChange →
      add cfg s t = State.cleared (s.nJavaScriptSkip - 1)) := by
  refine ⟨rfl, ?_, ?_, ?_⟩
  · intro cfg s av g h1 h2
    rcases changeTrack_cases cfg s av g with ⟨-, e⟩ | ⟨hn, -⟩
    · exact e
    · exact absurd ⟨h1, h2⟩ hn
  · intro cfg s av g hn
    rcases changeTrack_cases cfg s av g with ⟨hc, -⟩ | ⟨-, newms, e⟩
    · exact absurd hc hn
    · rw [e]
      exact ⟨rfl, rfl, rfl⟩
  · intro cfg s t h1 h2 h3 h4 h5 h6 h7
    rw [add_gates_pass cfg s t h1 h2 h3]
    rw [addGated_fast cfg
      { shiftWindow s t with
        nJavaScriptSkip := s.nJavaScriptSkip - 1, nSkip := s.nSkip - 1 } t h4]
    rcases changeTrack_cases cfg
        { shiftWindow s t with
          nJavaScriptSkip := s.nJavaScriptSkip - 1, nSkip := s.nSkip - 1 }
        (avemsVal { shiftWindow s t with
          nJavaScriptSkip := s.nJavaScriptSkip - 1, nSkip := s.nSkip - 1 })
        (windowGrouping { shiftWindow s t with
          nJavaScriptSkip := s.nJavaScriptSkip - 1, nSkip := s.nSkip - 1 }) with
      ⟨-, e⟩ | ⟨hn, -⟩
    · rw [e]
      have hgt : 20 < ({ shiftWindow s t with
          nJavaScriptSkip := s.nJavaScriptSkip - 1, nSkip := s.nSkip - 1 } : State).m_nChange + 1 := by
        show 20 < s.m_nChange + 1
        omega
      rw [if_pos hgt]
      rfl
    · exact absurd ⟨h5, h6⟩ hn

set_option maxRecDepth 400000 in
unseal Rat.add Rat.mul Rat.sub Rat.inv in
/-- Witness for C3: a concrete deviating admission that is the 21st in a
row (full reset), a concrete deviation bump, and a concrete fold. -/
theorem C3_change_tracking_witness :
    add defaultConfig
      (⟨70, 0, 0, -1, 0, 600, 610, 620, 630, 640, [], [], 0, false, 0, 240, 12, 20⟩ : State)
      650 = State.cleared (-2) ∧
    changeTrack defaultConfig
      (⟨70, 0, -1, -2, 0, 610, 620, 630, 640, 650, [], [], 0, false, 0, 240, 12, 3⟩ : State)
      10 0 =
      (⟨70, 0, -1, -2, 0, 610, 620, 630, 640, 650, [], [], 0, false, 0, 240, 12, 4⟩ : State) ∧
    ((changeTrack defaultConfig
      (⟨70, 0, -1, -2, 0, 610, 620, 630, 640, 650, [], [], 0, false, 0, 120, 12, 3⟩ : State)
      10 0).m_nChange = 0 ∧
     (changeTrack defaultConfig
      (⟨70, 0, -1, -2, 0, 610, 620, 630, 640, 650, [], [], 0, false, 0, 120, 12, 3⟩ : State)
      10 0).m_summs = 130 ∧
     (changeTrack defaultConfig
      (⟨70, 0, -1, -2, 0, 610, 620, 630, 640, 650, [], [], 0, false, 0, 120, 12, 3⟩ : State)
      10 0).m_nms = 13) := by
  refine ⟨?_, ?_, ?_⟩
  · rw [C3_change_tracking.2.2.2 defaultConfig
      (⟨70, 0, 0, -1, 0, 600, 610, 620, 630, 640, [], [], 0, false, 0, 240, 12, 20⟩ : State)
      650 (by decide) (by decide) (by decide) (by decide) (by decide) (by decide) (by decide)]
    decide
  · rw [C3_change_tracking.2.1 defaultConfig
      (⟨70, 0, -1, -2, 0, 610, 620, 630, 640, 650, [], [], 0, false, 0, 240, 12, 3⟩ : State)
      10 0 (by decide) (by decide)]
  · have h := C3_change_tracking.2.2.1 defaultConfig
      (⟨70, 0, -1, -2, 0, 610, 620, 630, 640, 650, [], [], 0, false, 0, 120, 12, 3⟩ : State)
      10 0 (by decide)
    refine ⟨h.1, h.2.1.trans (by decide), h.2.2⟩

/-- Claim C4: an admission that finds the store at capacity (MAX_STORE,
5,000,000 in the shipped configuration) downsamples both parallel
sequences in lockstep to their even-indexed elements before appending the
new sample, updates the skip stride to stride*2 + 1, and (like every
store) reloads the skip counter from the stride; a loaded skip counter
then absorbs exactly that many subsequent tight-grouped calls, leaving
the store untouched while the counter counts down. -/
theorem C4_downsampling :
    defaultConfig.MAXSTORE = 5000000 ∧
    (∀ (cfg : Config) (s : State), s.m_D.length = cfg.MAXSTORE →
      storeSample cfg s = { s with
        m_D := cut s.m_D ++ [s.L2],
        m_S := cut s.m_S ++ [(s.L0 + s.L1 + s.L2 + s.L3 + s.L4) / 5],
        nSkipBase := s.nSkipBase * 2 + 1,
        nSkip := s.nSkipBase * 2 + 1 }) ∧
    (∀ (cfg : Config) (s : State), s.m_D.length < cfg.MAXSTORE →
      storeSample cfg s = { s with
        m_D := s.m_D ++ [s.L2],
        m_S := s.m_S ++ [(s.L0 + s.L1 + s.L2 + s.L3 + s.L4) / 5],
        nSkip := s.nSkipBase }) ∧
    (∀ (cfg : Config) (ts : List ℚ) (s : State),
      s.nJavaScriptSkip ≤ 0 → (ts.length : ℤ) ≤ s.nSkip →
      (∀ i : Fin ts.length,
        windowGrouping (shiftWindow (runCycles cfg s (ts.take i)) (ts.get i)) <
          cfg.TIGHTGROUPMS) →
      (runCycles cfg s ts).m_D = s.m_D ∧ (runCycles cfg s ts).m_S = s.m_S ∧
      (runCycles cfg s ts).nSkip = s.nSkip - ts.length) := by
  refine ⟨rfl, ?_, ?_, ?_⟩
  · intro cfg s h
    rcases storeSample_cases cfg s with ⟨hlt, e⟩ | ⟨-, e⟩
    · omega
    · exact e
  · intro cfg s h
    rcases storeSample_cases cfg s with ⟨-, e⟩ | ⟨hge, e⟩
    · exact e
    · omega
  · intro cfg ts s h1 h2 H
    obtain ⟨hD, hS, hskip, -⟩ := runCycles_absorb cfg ts s h1 h2 H
    exact ⟨hD, hS, hskip⟩

set_option maxRecDepth 400000 in
unseal Rat.add Rat.mul Rat.sub Rat.inv in
/-- Witness for C4: a capacity-2 configuration overflowing concretely, and
two tight calls absorbed by a loaded skip counter. -/
theorem C4_downsampling_witness :
    storeSample (⟨100, 1, 1, 2, 35, 60⟩ : Config)
      (⟨9, 0, 0, -1, 0, 1, 3, 9, 7, 5, [1, 2], [3, 4], 0, false, 0, 0, 0, 0⟩ : State) =
      (⟨9, 1, 1, -1, 0, 1, 3, 9, 7, 5, [1, 9], [3, 5], 0, false, 0, 0, 0, 0⟩ : State) ∧
    ((runCycles defaultConfig
        (⟨0, 0, 2, 0, 0, 0, 10, 20, 30, 40, [], [], 0, false, 0, 0, 0, 0⟩ : State)
        [50, 60]).m_D = [] ∧
     (runCycles defaultConfig
        (⟨0, 0, 2, 0, 0, 0, 10, 20, 30, 40, [], [], 0, false, 0, 0, 0, 0⟩ : State)
        [50, 60]).nSkip = 0) := by
  constructor
  · rw [C4_downsampling.2.1 (⟨100, 1, 1, 2, 35, 60⟩ : Config)
      (⟨9, 0, 0, -1, 0, 1, 3, 9, 7, 5, [1, 2], [3, 4], 0, false, 0, 0, 0, 0⟩ : State)
      (by decide)]
    decide
  · have h := C4_downsampling.2.2.2 defaultConfig [50, 60]
      (⟨0, 0, 2, 0, 0, 0, 10, 20, 30, 40, [], [], 0, false, 0, 0, 0, 0⟩ : State)
      (by decide) (by decide) (by decide)
    refine ⟨h.1, h.2.2.trans (by decide)⟩

/-- Claim C5: a tight-grouped call passing both skip gates whose window
mean implies a rate at or below the floor (avgMs at or above
1000/LOWEST_VALID_HZ, with LOWEST_VALID_HZ = 35 in the shipped
configuration) is silently dropped: only the window shift, cycle count
and the two gate decrements happen; consequently a source all of whose
tight windows are that slow never stores a sample and the frequency
accessor stays 0. -/
theorem C5_low_rate_floor :
    defaultConfig.LOWESTVALIDHZ = 35 ∧
    (∀ (cfg : Config) (s : State) (t : ℚ),
      windowGrouping (shiftWindow s t) < cfg.TIGHTGROUPMS →
      s.nJavaScriptSkip ≤ 0 → s.nSkip ≤ 0 →
      1000 / cfg.LOWESTVALIDHZ ≤ avemsVal (shiftWindow s t) →
      add cfg s t = { shiftWindow s t with
        nJavaScriptSkip := s.nJavaScriptSkip - 1, nSkip := s.nSkip - 1 }) ∧
    (∀ (cfg : Config) (ts : List ℚ),
      (∀ i : Fin ts.length,
        windowGrouping (shiftWindow (runCycles cfg (init cfg) (ts.take i)) (ts.get i)) <
            cfg.TIGHTGROUPMS →
        1000 / cfg.LOWESTVALIDHZ ≤
            avemsVal (shiftWindow (runCycles cfg (init cfg) (ts.take i)) (ts.get i))) →
      (runCycles cfg (init cfg) ts).m_D = [] ∧
      getCurrentFrequency (runCycles cfg (init cfg) ts) = 0) := by
  refine ⟨rfl, ?_, ?_⟩
  · intro cfg s t h1 h2 h3 h4
    rw [add_gates_pass cfg s t h1 h2 h3]
    exact addGated_slow cfg
      { shiftWindow s t with
        nJavaScriptSkip := s.nJavaScriptSkip - 1, nSkip := s.nSkip - 1 } t
      (not_lt.mpr h4)
  · intro cfg ts H
    obtain ⟨hD, -, hms⟩ := runCycles_slow_inert cfg ts (init cfg) H
    refine ⟨hD, ?_⟩
    have hms0 : (runCycles cfg (init cfg) ts).m_ms = 0 := hms
    simp [getCurrentFrequency, calcHz, hms0]

set_option maxRecDepth 400000 in
unseal Rat.add Rat.mul Rat.sub Rat.inv in
/-- Witness for C5: a concrete dropped slow call and a concrete 30 ms
(at most 33.3 Hz) source that never stores a sample. -/
theorem C5_low_rate_floor_witness :
    add defaultConfig
      (⟨9, 0, 0, 0, 0, 0, 30, 60, 90, 120, [], [], 0, false, 0, 0, 0, 0⟩ : State) 150 =
      (⟨10, 0, -1, -1, 0, 30, 60, 90, 120, 150, [], [], 0, false, 0, 0, 0, 0⟩ : State) ∧
    (runCycles defaultConfig (init defaultConfig) [30, 60, 90, 120, 150, 180]).m_D = [] ∧
    getCurrentFrequency
      (runCycles defaultConfig (init defaultConfig) [30, 60, 90, 120, 150, 180]) = 0 := by
  refine ⟨?_, ?_⟩
  · rw [C5_low_rate_floor.2.1 defaultConfig
      (⟨9, 0, 0, 0, 0, 0, 30, 60, 90, 120, [], [], 0, false, 0, 0, 0, 0⟩ : State) 150
      (by decide) (by decide) (by decide) (by decide)]
    decide
  · exact C5_low_rate_floor.2.2 defaultConfig [30, 60, 90, 120, 150, 180] (by decide)

/-- Claim C9: in every reachable state the two parallel sample-store
sequences have equal length bounded by MAX_STORE (5,000,000 in the
shipped configuration): the invariant holds initially and is preserved by
countCycle, ignoreNextCycle and restartMeasuring (the read-only accessors
do not mutate state), for any capacity of at least 2. -/
theorem C9_store_lengths :
    defaultConfig.MAXSTORE = 5000000 ∧
    (∀ cfg : Config, 2 ≤ cfg.MAXSTORE →
      StoreInv cfg (init cfg) ∧
      (∀ (s : State) (t : ℚ), StoreInv cfg s → StoreInv cfg (countCycle cfg s t)) ∧
      (∀ (s : State) (n : ℤ), StoreInv cfg s → StoreInv cfg (ignoreNextCycle s n)) ∧
      (∀ s : State, StoreInv cfg s → StoreInv cfg (restartMeasuring s))) := by
  refine ⟨rfl, ?_⟩
  intro cfg hM
  refine ⟨⟨rfl, by show (0 : ℕ) ≤ cfg.MAXSTORE; omega⟩, ?_, ?_, ?_⟩
  · intro s t h
    exact storeInv_add cfg hM s t h
  · intro s n h
    exact h
  · intro s h
    exact ⟨rfl, by show (0 : ℕ) ≤ cfg.MAXSTORE; omega⟩

set_option maxRecDepth 400000 in
unseal Rat.add Rat.mul Rat.sub Rat.inv in
/-- Witness for C9: the invariant concretely, at the initial state and
after a concrete admission-heavy prefix step. -/
theorem C9_store_lengths_witness :
    StoreInv defaultConfig (init defaultConfig) ∧
    StoreInv defaultConfig (countCycle defaultConfig (init defaultConfig) 7) ∧
    StoreInv defaultConfig (ignoreNextCycle (init defaultConfig) 3) ∧
    StoreInv defaultConfig (restartMeasuring (init defaultConfig)) := by
  have h := C9_store_lengths.2 defaultConfig (by decide)
  exact ⟨h.1, h.2.1 _ 7 h.1, h.2.2.1 _ 3 h.1, h.2.2.2 _ h.1⟩

/-- Claim C7 (amended): restartMeasuring clears every statistic: count and
frequency read 0, the store is empty, running mean, interval, timebase,
change counter, skip counter, stride and update time are all zeroed and
the validated flag is down - but the one-time startup-skip counter is NOT
re-armed: `__reset` leaves `_nJavaScriptSkip` untouched, so the 60-call
startup skip governs only the first priming after construction, not
re-priming after a restart. -/
theorem C7_restart_clears (s : State) :
    getCount (restartMeasuring s) = 0 ∧
    getCurrentFrequency (restartMeasuring s) = 0 ∧
    (restartMeasuring s).m_D = [] ∧
    (restartMeasuring s).m_S = [] ∧
    (restartMeasuring s).m_summs = 0 ∧
    (restartMeasuring s).m_nms = 0 ∧
    (restartMeasuring s).m_ms = 0 ∧
    (restartMeasuring s).m_tvsync = 0 ∧
    (restartMeasuring s).m_nChange = 0 ∧
    (restartMeasuring s).nSkip = 0 ∧
    (restartMeasuring s).nSkipBase = 0 ∧
    (restartMeasuring s).tUpdate = 0 ∧
    getFilteredCycleTimestamp (restartMeasuring s) = none ∧
    (restartMeasuring s).nJavaScriptSkip = s.nJavaScriptSkip := by
  refine ⟨rfl, ?_, rfl, rfl, rfl, rfl, rfl, rfl, rfl, rfl, rfl, rfl, rfl, rfl⟩
  simp [getCurrentFrequency, calcHz, restartMeasuring, resetOf, State.cleared]

set_option maxRecDepth 400000 in
unseal Rat.add Rat.mul Rat.sub Rat.inv in
/-- Counterexample to C7 as stated: after 64 lattice ticks (61 of them
tight, consuming the startup skip and storing one sample) and a
restartMeasuring, a single tight call already stores a sample - the
startup skip of 60 admissions does NOT govern re-priming again, because
`_nJavaScriptSkip` (-1 before the restart) survives the reset. -/
theorem C7_counterexample :
    defaultConfig.nJavaScriptSkip = 60 ∧
    (run defaultConfig (c7aTicks.map Event.cycle)).nJavaScriptSkip = -1 ∧
    (run defaultConfig (c7aTicks.map Event.cycle)).m_D.length = 1 ∧
    (run defaultConfig c7Events).m_D.length = 1 ∧
    (run defaultConfig c7Events).nJavaScriptSkip = -2 ∧
    (run defaultConfig c7Events).cycleCount = 5 := by
  have h1 : run defaultConfig (c7aTicks.map Event.cycle) = c7ast5 := by
    rw [run_cycleMap, c7aState_eq]
  have e : c7Events = c7aTicks.map Event.cycle ++
      ([Event.restart] ++ ((List.range 5).map fun i => Event.cycle (650 + 10 * (i : ℚ)))) := by
    simp [c7Events, List.append_assoc]
  have h2 : run defaultConfig c7Events =
      (⟨5, 0, 0, -2, 0, 650, 660, 670, 680, 690, [670], [670], 0, false, 0, 10, 1, 0⟩ : State) := by
    rw [e, run_append, h1]
    decide
  rw [h1, h2]
  refine ⟨by decide, by decide, by decide, by decide, by decide, by decide⟩

/-- Claim C8 (amended): every countCycle call either advances getCount()
by exactly one, or is an internal full reset (sustained Hz change or
excessive drift) that returns the estimator to the cleared state - so the
count equals the number of calls since the last reset and only an
internal reset can make it decrease, even with no restartMeasuring call
in between. -/
theorem C8_count_per_call (cfg : Config) (s : State) (t : ℚ) :
    (getCount (countCycle cfg s t) = getCount s + 1 ∧
      getCount s ≤ getCount (countCycle cfg s t)) ∨
    countCycle cfg s t = State.cleared (s.nJavaScriptSkip - 1) := by
  rcases add_shape cfg s t with h | h
  · left
    refine ⟨h, ?_⟩
    show s.cycleCount ≤ (add cfg s t).cycleCount
    omega
  · right
    exact h

set_option maxRecDepth 400000 in
unseal Rat.add Rat.mul Rat.sub Rat.inv in
/-- Counterexample to C8 as stated: a 98-call stream with no
restartMeasuring (74 ticks at 10 ms, then 24 at 25 ms) reaches
getCount() = 97 after 97 calls, yet the 98th call - the 21st consecutive
deviating admission - internally resets and getCount() drops to 0, not
98: the count is neither the cumulative number of invocations nor
monotonically increasing. -/
theorem C8_counterexample :
    c8FullTicks.length = 98 ∧
    getCount (runCycles defaultConfig (init defaultConfig) c8Ticks) = 97 ∧
    getCount (runCycles defaultConfig (init defaultConfig) c8FullTicks) = 0 := by
  refine ⟨by decide, ?_, ?_⟩
  · rw [show getCount (runCycles defaultConfig (init defaultConfig) c8Ticks) =
      (runCycles defaultConfig (init defaultConfig) c8Ticks).cycleCount from rfl, c8State_eq]
    decide
  · rw [show getCount (runCycles defaultConfig (init defaultConfig) c8FullTicks) =
      (runCycles defaultConfig (init defaultConfig) (c8Ticks ++ [1340])).cycleCount from rfl,
      runCycles_append, c8State_eq]
    decide

/-- Claim C6 (amended): getCurrentFrequency() returns 1000/msInterval when
the interval is primed (nonzero) and the sentinel 0 otherwise; and
getFilteredCycleTimestamp() returns the pair {tvsync, ms} exactly when
the validated flag is set - the flag is raised only by a successful
validation and every reset (including restartMeasuring and the internal
resets) lowers it, so the pair is available if a validation has succeeded
SINCE THE LAST RESET, not ever; no stale or extrapolated value is ever
returned. -/
theorem C6_accessor_sentinels :
    (∀ s : State, s.m_ms ≠ 0 → getCurrentFrequency s = 1000 / s.m_ms) ∧
    (∀ s : State, s.m_ms = 0 → getCurrentFrequency s = 0) ∧
    (∀ s : State, s.m_vi = true →
      getFilteredCycleTimestamp s = some (s.m_tvsync, s.m_ms)) ∧
    (∀ s : State, s.m_vi = false → getFilteredCycleTimestamp s = none) ∧
    (∀ n : ℤ, (State.cleared n).m_vi = false) ∧
    (∀ s : State, (validate s).m_vi = true ∨ validate s = State.cleared s.nJavaScriptSkip) := by
  refine ⟨?_, ?_, ?_, ?_, fun n => rfl, ?_⟩
  · intro s h
    simp [getCurrentFrequency, calcHz, h]
  · intro s h
    simp [getCurrentFrequency, calcHz, h]
  · intro s h
    simp [getFilteredCycleTimestamp, snap, h]
  · intro s h
    simp [getFilteredCycleTimestamp, snap, h]
  · intro s
    rcases validate_cases s with ⟨-, e⟩ | ⟨-, e⟩
    · left
      rw [e]
    · right
      exact e

set_option maxRecDepth 400000 in
unseal Rat.add Rat.mul Rat.sub Rat.inv in
/-- Witness for C6 at concrete states: a primed interval of 10 ms reads
100 Hz, a raised flag returns the stored pair, a cleared state returns
the sentinels. -/
theorem C6_accessor_sentinels_witness :
    getCurrentFrequency
      (⟨0, 0, 0, 0, 0, 0, 0, 0, 0, 0, [], [], 10, false, 0, 0, 0, 0⟩ : State) = 100 ∧
    getFilteredCycleTimestamp
      (⟨0, 0, 0, 0, 0, 0, 0, 0, 0, 0, [], [], 10, true, 620, 0, 0, 0⟩ : State) =
      some (620, 10) ∧
    getCurrentFrequency (State.cleared 5) = 0 ∧
    getFilteredCycleTimestamp (State.cleared 5) = none := by
  refine ⟨?_, ?_, ?_, ?_⟩
  · rw [C6_accessor_sentinels.1
      (⟨0, 0, 0, 0, 0, 0, 0, 0, 0, 0, [], [], 10, false, 0, 0, 0, 0⟩ : State) (by decide)]
    decide
  · rw [C6_accessor_sentinels.2.2.1
      (⟨0, 0, 0, 0, 0, 0, 0, 0, 0, 0, [], [], 10, true, 620, 0, 0, 0⟩ : State) (by decide)]
  · exact C6_accessor_sentinels.2.1 (State.cleared 5) (by decide)
  · exact C6_accessor_sentinels.2.2.2.1 (State.cleared 5) (by decide)

set_option maxRecDepth 400000 in
unseal Rat.add Rat.mul Rat.sub Rat.inv in
/-- Counterexample to C6 as stated: after a 94-tick 10 ms lattice a
validation HAS succeeded (the flag is up and the pair {620, 10} is
returned), yet after one further restartMeasuring call the accessor
returns the null sentinel although a validation has ever succeeded - the
pair reflects validation since the last reset, not ever. -/
theorem C6_counterexample :
    (runCycles defaultConfig (init defaultConfig) c6Ticks).m_vi = true ∧
    getFilteredCycleTimestamp (runCycles defaultConfig (init defaultConfig) c6Ticks) =
      some (620, 10) ∧
    run defaultConfig c6Events = State.cleared (-31) ∧
    getFilteredCycleTimestamp (run defaultConfig c6Events) = none := by
  have h1 := c6State_eq
  have e : c6Events = c6Ticks.map Event.cycle ++ [Event.restart] := rfl
  have h2 : run defaultConfig c6Events = State.cleared (-31) := by
    rw [e, run_append, run_cycleMap, h1]
    decide
  refine ⟨by rw [h1]; decide, ?_, h2, by rw [h2]; rfl⟩
  show snap (runCycles defaultConfig (init defaultConfig) c6Ticks) = some (620, 10)
  rw [h1]
  decide

/-- Claim C10 (amended): the least-squares denominator N*sxx - sx*sx of
`__validate` is always NONNEGATIVE (a Cauchy-Schwarz quantity over the
inferred cycle indices), but it is not always nonzero under the claimed
preconditions: it vanishes exactly when all inferred cycle indices
coincide, which is reachable (see the counterexample), so the two
unguarded divisions can divide by zero. -/
theorem C10_denominator_nonneg :
    defaultConfig.VALIDATEMS = 100 ∧
    ∀ (ms : ℚ) (D S : List ℚ), 0 ≤ olsDenom ms D S :=
  ⟨rfl, olsDenom_nonneg_aux⟩

set_option maxRecDepth 400000 in
unseal Rat.add Rat.mul Rat.sub Rat.inv in
/-- Counterexample to C10 as stated: after the 454-tick sawtooth the 455th
call (t = 1040) is a tight admission that passes every gate, primes
msInterval to 10 from the running mean of 31 admissions, and triggers
validation (1040 - 0 > VALIDATE_MS); but all 31 stored smoothed samples
are within 2 ms of each other, every inferred cycle index rounds to 0,
and the least-squares denominator is exactly 0 - the division-by-zero
branch of `__validate` is reachable under the claimed preconditions. -/
theorem C10_counterexample :
    windowGrouping c10Shifted < defaultConfig.TIGHTGROUPMS ∧
    c10Passed.nJavaScriptSkip < 0 ∧
    c10Passed.nSkip < 0 ∧
    avemsVal c10Passed < 1000 / defaultConfig.LOWESTVALIDHZ ∧
    ¬ 20 < c10Tracked.m_nChange ∧
    c10Tracked.m_nms = 31 ∧
    c10Stored.m_ms = 10 ∧
    c10Stored.m_D.length = 31 ∧
    defaultConfig.VALIDATEMS < 1040 - c10Stored.tUpdate ∧
    olsDenom c10Stored.m_ms c10Stored.m_D c10Stored.m_S = 0 ∧
    add defaultConfig c10Pre 1040 = State.cleared (-31) := by
  have hpre : c10Pre = c10st37 := c10State_eq
  simp only [c10Stored, c10Tracked, c10Passed, c10Shifted, hpre]
  decide

/-- Claim C1 (amended): when the validator runs it sets msInterval to the
fitted OLS slope and the candidate timebase to rawSamples[0] plus the
intercept; the residual offsets ((raw[i] - tb + halfMs) % msInterval) -
halfMs are computed for every stored raw sample EXCEPT THE FIRST (the
drift loop starts at index 1), with min and max tracked over those
residuals together with an initial 0; each such residual lies in
[-halfMs, halfMs) PROVIDED the fitted interval is positive and the
shifted dividend raw[i] - tb + halfMs is nonnegative (the JavaScript %
takes the dividend's sign, and a negative fitted interval inverts the
interval); if max - min < halfMs the validator accepts and sets
tvsync = tb + min, otherwise it performs a full reset. -/
theorem C1_validator_fit :
    (∀ s : State, fitMax s - fitMin s < fitM s / 2 →
      validate s = { s with
        m_ms := fitM s, m_tvsync := fitTb s + fitMin s, m_vi := true }) ∧
    (∀ s : State, ¬ fitMax s - fitMin s < fitM s / 2 →
      validate s = State.cleared s.nJavaScriptSkip) ∧
    (∀ s : State, fitM s = olsSlope s.m_ms s.m_D s.m_S ∧
      fitTb s = s.m_D.headD 0 + olsIntercept s.m_ms s.m_D s.m_S ∧
      fitOffs s = (s.m_D.drop 1).map
        (fun d => jsRem (d - fitTb s + fitM s / 2) (fitM s) - fitM s / 2) ∧
      fitMin s = (fitOffs s).foldl min 0 ∧ fitMax s = (fitOffs s).foldl max 0) ∧
    (∀ (D : List ℚ) (tb ms : ℚ), 0 < ms → (∀ d ∈ D, 0 ≤ d - tb + ms / 2) →
      ∀ off ∈ driftOffsets D tb (ms / 2) ms, -(ms / 2) ≤ off ∧ off < ms / 2) := by
  refine ⟨?_, ?_, ?_, driftOffsets_range⟩
  · intro s h
    rcases validate_cases s with ⟨-, e⟩ | ⟨hn, -⟩
    · exact e
    · exact absurd h hn
  · intro s h
    rcases validate_cases s with ⟨hc, -⟩ | ⟨-, e⟩
    · exact absurd hc h
    · exact e
  · intro s
    exact ⟨rfl, rfl, rfl, rfl, rfl⟩

set_option maxRecDepth 400000 in
unseal Rat.add Rat.mul Rat.sub Rat.inv in
/-- Witness for C1 at concrete stores: a perfect 10 ms three-sample store
is accepted (slope 10, timebase 0, zero residuals), a degenerate store is
rejected with a full reset, and the residual-range fact holds at a
concrete positive-interval instance. -/
theorem C1_validator_fit_witness :
    validate (⟨0, 0, 0, 0, 0, 0, 0, 0, 0, 0, [0, 10, 20], [0, 10, 20],
        10, false, 0, 0, 0, 0⟩ : State) =
      (⟨0, 0, 0, 0, 0, 0, 0, 0, 0, 0, [0, 10, 20], [0, 10, 20],
        10, true, 0, 0, 0, 0⟩ : State) ∧
    validate (⟨0, 0, 0, 7, 0, 0, 0, 0, 0, 0, [0, 3, 7], [0, 3, 7],
        10, false, 0, 0, 0, 0⟩ : State) = State.cleared 7 ∧
    (-(10 / 2 : ℚ) ≤ 3 ∧ (3 : ℚ) < 10 / 2) := by
  refine ⟨?_, ?_, ?_⟩
  · rw [C1_validator_fit.1 (⟨0, 0, 0, 0, 0, 0, 0, 0, 0, 0, [0, 10, 20], [0, 10, 20],
        10, false, 0, 0, 0, 0⟩ : State) (by decide)]
    decide
  · exact C1_validator_fit.2.1 (⟨0, 0, 0, 7, 0, 0, 0, 0, 0, 0, [0, 3, 7], [0, 3, 7],
        10, false, 0, 0, 0, 0⟩ : State) (by decide)
  · exact C1_validator_fit.2.2.2 [0, 3, 7] 0 10 (by decide) (by decide) 3 (by decide)

set_option maxRecDepth 400000 in
unseal Rat.add Rat.mul Rat.sub Rat.inv in
/-- Counterexample to C1 as stated: on the 95th call of a decreasing
10 ms lattice the validator runs (all gates pass, msInterval primed to
-10, 1050 - 0 > VALIDATE_MS), fits slope m = -10 so halfMs = -5, and the
computed residual 0 does NOT lie in the claimed interval
[-halfMs, halfMs) = [5, -5), which is empty; the validator then resets.
The claimed residual-range property fails at a reachable validator run. -/
theorem C1_counterexample :
    windowGrouping c1Shifted < defaultConfig.TIGHTGROUPMS ∧
    c1Passed.nJavaScriptSkip < 0 ∧
    c1Passed.nSkip < 0 ∧
    avemsVal c1Passed < 1000 / defaultConfig.LOWESTVALIDHZ ∧
    ¬ 20 < c1Tracked.m_nChange ∧
    c1Stored.m_ms = -10 ∧
    defaultConfig.VALIDATEMS < 1050 - c1Stored.tUpdate ∧
    fitM c1Val = -10 ∧
    (0 : ℚ) ∈ fitOffs c1Val ∧
    ¬ (-(fitM c1Val / 2) ≤ (0 : ℚ) ∧ (0 : ℚ) < fitM c1Val / 2) ∧
    add defaultConfig c1Pre 1050 = State.cleared (-31) := by
  have hpre : c1Pre = c1st7 := c1State_eq
  simp only [c1Val, c1Stored, c1Tracked, c1Passed, c1Shifted, hpre]
  decide


end RRC
